import Mathlib

set_option autoImplicit false

/-!
Shallow embedding of the per-exposure calibration engine of this repository
(`src/arsciexp.py`, class `ScienceExposure`) and of the spectrograph
bad-pixel-mask generators (`pypit/spectrographs/spectroclass.py`,
`pypit/spectrographs/keck_nirspec.py`).

Modelling conventions:
* A numpy value stored in a per-detector slot is `NPVal`: a 2-D array
  (`mat`, a rectangular list of rows of rationals), a 3-D array (`cube`),
  or a Python string (`str`, used for the `'overscan'` sentinel).
  A Python `None` slot is `Option.none` around an `NPVal`.
* Python list indexing (`l[i]`, including negative indexing) is `pyGet`;
  `l[i] = v` is `pySet`.  An index out of range is `PyErr.indexError`.
* `msgs.error` in the source terminates the run; every abnormal
  termination (including `AttributeError` from `None.T`, `KeyError` from a
  missing settings key, and `ZeroDivisionError`) is modelled as
  `Except.error`, which carries no post-state: a run that dies leaves no
  observable state.
* External collaborators (arload.load_frames, arcomb.comb_frames,
  arsort.match_frames, arload.load_master, arproc.flatnorm,
  artrace.dispdir) are opaque parameter functions collected in `Extern`;
  the per-run settings they close over (spect, comb policies) are folded
  into the `Extern` value.
-/

/-- Abnormal termination of the Python code: `msgs.error` (which ends the
run), or an uncaught exception. -/
inductive PyErr where
  | msgsError (s : String)
  | attrError
  | indexError
  | keyError
  | typeError
  | valueError
  | zeroDivError
  deriving DecidableEq, Repr

/-- Decidable equality of run results (used only to evaluate the model at
concrete inputs). -/
instance {ε α : Type} [DecidableEq ε] [DecidableEq α] : DecidableEq (Except ε α) :=
  fun x y =>
    match x, y with
    | Except.ok a, Except.ok b =>
      if h : a = b then isTrue (by rw [h]) else isFalse (by simp [h])
    | Except.error e, Except.error f =>
      if h : e = f then isTrue (by rw [h]) else isFalse (by simp [h])
    | Except.ok _, Except.error _ => isFalse (by simp)
    | Except.error _, Except.ok _ => isFalse (by simp)

/-- A numpy value held in a per-detector slot: 2-D array, 3-D array, or a
Python string (the `'overscan'` sentinel). -/
inductive NPVal where
  | mat (m : List (List ℚ))
  | cube (c : List (List (List ℚ)))
  | str (s : String)
  deriving DecidableEq, Repr

namespace NPVal

/-- `shape[0]` of an array value; a string has no `.shape`. -/
def shape0 : NPVal → Except PyErr ℕ
  | mat m => .ok m.length
  | cube c => .ok c.length
  | str _ => .error .attrError

/-- `shape[1]` of an array value. -/
def shape1 : NPVal → Except PyErr ℕ
  | mat m => .ok (m.headD []).length
  | cube c => .ok (c.headD []).length
  | str _ => .error .attrError

/-- `shape[2]` of an array value (only a 3-D stack has one). -/
def shape2 : NPVal → Except PyErr ℕ
  | mat _ => .error .indexError
  | cube c => .ok ((c.headD []).headD []).length
  | str _ => .error .attrError

end NPVal

/-- Transpose of a 2-D list-of-rows matrix, `a.T` for a 2-D ndarray:
entry `(j, i)` of the result is entry `(i, j)` of the input. -/
def matT (m : List (List ℚ)) : List (List ℚ) :=
  (List.range (m.headD []).length).map fun j => m.map fun row => row.getD j 0

/-- `a.T` of a 3-D ndarray reverses the axis order:
`out[i][j][k] = a[k][j][i]`. -/
def cubeT (c : List (List (List ℚ))) : List (List (List ℚ)) :=
  (List.range ((c.headD []).headD []).length).map fun i =>
    (List.range (c.headD []).length).map fun j =>
      c.map fun plane => ((plane.getD j []).getD i 0)

/-- `.T` on a slot value.  The source only applies `.T` to values it has
checked to be ndarrays, so the `str` case is unreachable there. -/
def NPVal.T : NPVal → NPVal
  | .mat m => .mat (matT m)
  | .cube c => .cube (cubeT c)
  | .str s => .str s

/-- `value.copy()`: defined on ndarrays (returns an equal array); a Python
`str` has no `.copy` method. -/
def NPVal.copy : NPVal → Except PyErr NPVal
  | .mat m => .ok (.mat m)
  | .cube c => .ok (.cube c)
  | .str _ => .error .attrError

/-- Whether a slot value is an ndarray (as opposed to the `'overscan'`
string sentinel). -/
def NPVal.isArr : NPVal → Bool
  | .mat _ => true
  | .cube _ => true
  | .str _ => false

/-- Python list index resolution: `0 ≤ i < n` addresses `i`; a negative
`i ≥ -n` addresses `n + i` (so `-1` is the LAST element); anything else is
an `IndexError`. -/
def pyIdx (n : ℕ) (i : ℤ) : Option ℕ :=
  if 0 ≤ i ∧ i < (n : ℤ) then some i.toNat
  else if -(n : ℤ) ≤ i ∧ i < 0 then some (i + n).toNat
  else none

/-- Python `l[i]`. -/
def pyGet {α : Type} (l : List α) (i : ℤ) : Except PyErr α :=
  match pyIdx l.length i with
  | some k =>
    match l[k]? with
    | some v => .ok v
    | none => .error .indexError
  | none => .error .indexError

/-- Python `l[i] = v`. -/
def pySet {α : Type} (l : List α) (i : ℤ) (v : α) : Except PyErr (List α) :=
  match pyIdx l.length i with
  | some k => .ok (l.set k v)
  | none => .error .indexError

/-- Per-detector entry of `spect['det']`.  The per-amplifier settings keys
`ampsec01..`, `datasec01..`, `oscansec01..` are modelled as list positions
`0..`; each section value is the list that `[::-1]` reverses. -/
structure DetPar where
  xgap : ℚ
  ygap : ℚ
  xsize : ℚ
  ysize : ℚ
  saturation : ℚ
  nonlinear : ℚ
  numamplifiers : ℕ
  ampsec : List (List (List ℤ))
  datasec : List (List (List ℤ))
  oscansec : List (List (List ℤ))
  deriving DecidableEq, Repr

/-- The settings consumed by the modelled methods of `ScienceExposure`. -/
structure ArgFlag where
  direction : Option ℤ
  usebias : String
  usearc : String
  usetrace : String
  useflat : String
  usepixflat : String
  flatfield : Bool
  badpix : Bool
  arcmatch : ℚ
  flatmatch : ℚ
  masterdir : String
  deriving DecidableEq, Repr

/-- The per-frame header keywords mutated by `GetDispersionDirection`. -/
structure FitsDict where
  naxis0 : List ℕ
  naxis1 : List ℕ
  deriving DecidableEq, Repr

/-- The opaque external collaborators (artrace.dispdir, arload.load_frames,
arcomb.comb_frames, arsort.match_frames, arload.load_master,
arproc.flatnorm).  The per-run settings they receive (spect, combination
policy kwargs) are constant over a run and folded into the `Extern` value. -/
structure Extern where
  dispdir : NPVal → ℤ
  loadFrames : FitsDict → List ℕ → ℤ → String → Option NPVal → Bool → NPVal
  combFrames : NPVal → ℤ → String → Option (List ℚ) → List (List ℚ)
  matchFrames : NPVal → ℚ → String → (ℚ ⊕ List ℚ) → List NPVal
  loadMaster : String → Option String → List (List ℚ)
  flatnorm : ℤ → NPVal → List (List ℚ) × List (List ℚ)

/-- The mutable per-exposure state of a `ScienceExposure` instance
(the fields touched by the modelled methods). -/
structure SciExp where
  argflag : ArgFlag
  transpose : Bool
  dispaxis : Option ℤ
  idxArcs : List ℕ
  idxBias : List ℕ
  idxTrace : List ℕ
  idxFlat : List ℕ
  nonlinear : List ℚ
  nspec : List (Option ℕ)
  nspat : List (Option ℕ)
  ampsec : List (Option NPVal)
  bpix : List (Option NPVal)
  msarc : List (Option NPVal)
  msbias : List (Option NPVal)
  mstrace : List (Option NPVal)
  mspixflat : List (Option NPVal)
  mspixflatnrm : List (Option NPVal)
  msblaze : List (Option NPVal)
  spectDet : List DetPar
  deriving DecidableEq, Repr

namespace ScienceExposure

/-- `ScienceExposure.SetFrame(toarray, value, det, copy=True)`. -/
def SetFrame (toarray : List (Option NPVal)) (value : NPVal) (det : ℤ)
    (copy : Bool := true) : Except PyErr (List (Option NPVal)) := do
  if copy then
    let c ← value.copy
    pySet toarray (det - 1) (some c)
  else
    pySet toarray (det - 1) (some value)

/-- `ScienceExposure.SetMasterFrame(frame, ftype, det, copy=True)`. -/
def SetMasterFrame (st : SciExp) (frame : Option NPVal) (ftype : String)
    (det : ℤ) (copy : Bool := true) : Except PyErr SciExp := do
  let d := det - 1
  let cpf ← if copy then
      match frame with
      | some v => do let c ← v.copy; pure (some c)
      | none => Except.error PyErr.attrError
    else pure frame
  if ftype = "arc" then
    let l ← pySet st.msarc d cpf
    pure { st with msarc := l }
  else if ftype = "bias" then
    let l ← pySet st.msbias d cpf
    pure { st with msbias := l }
  else if ftype = "normpixflat" then
    let l ← pySet st.mspixflatnrm d cpf
    pure { st with mspixflatnrm := l }
  else if ftype = "pixflat" then
    let l ← pySet st.mspixflat d cpf
    pure { st with mspixflat := l }
  else if ftype = "trace" then
    let l ← pySet st.mstrace d cpf
    pure { st with mstrace := l }
  else
    Except.error (PyErr.msgsError "Please contact the authors")

/-- `ScienceExposure.GetMasterFrame(ftype, det, copy=True)`. -/
def GetMasterFrame (st : SciExp) (ftype : String) (det : ℤ)
    (copy : Bool := true) : Except PyErr (Option NPVal) := do
  let d := det - 1
  let slot : List (Option NPVal) ←
    if ftype = "arc" then pure st.msarc
    else if ftype = "bias" then pure st.msbias
    else if ftype = "normpixflat" then pure st.mspixflatnrm
    else if ftype = "pixflat" then pure st.mspixflat
    else if ftype = "trace" then pure st.mstrace
    else Except.error (PyErr.msgsError "Please contact the authors")
  let v ← pyGet slot d
  if copy then
    match v with
    | some x => do let c ← x.copy; pure (some c)
    | none => Except.error PyErr.attrError
  else pure v

/-- Lines 167-174 of `GetDispersionDirection`: resolve the dispersion axis
from the configuration, falling back to `artrace.dispdir` on the master
arc when the configuration leaves it unset.  Only an explicitly configured
value outside {0, 1} is rejected (fatal `msgs.error`). -/
def detect_axis (dispdir : NPVal → ℤ) (direction : Option ℤ)
    (arcSlot : Option NPVal) : Except PyErr ℤ :=
  match direction with
  | none =>
    match arcSlot with
    | some v => Except.ok (dispdir v)
    | none => Except.error PyErr.attrError
  | some d =>
    if d = 0 ∨ d = 1 then Except.ok d
    else Except.error (PyErr.msgsError "The argument for the dispersion direction must be either 0 or 1")

/-- Lines 211-215: reverse (`[::-1]`) the section value of each of the
`numamplifiers` amplifiers; a missing `ampsecNN`-style key is a KeyError. -/
def flipSecs (n : ℕ) (l : List (List (List ℤ))) :
    Except PyErr (List (List (List ℤ))) :=
  if n ≤ l.length then Except.ok ((l.take n).map List.reverse ++ l.drop n)
  else Except.error PyErr.keyError

/-- Lines 201-204: swap `naxis0[i]` and `naxis1[i]` for EVERY frame index
`i` of the exposure (the loop runs over the whole keyword list, not over
the current detector's frames). -/
def swapNaxisKeys (fd : FitsDict) : Except PyErr FitsDict :=
  if fd.naxis0.length ≤ fd.naxis1.length then
    Except.ok ⟨fd.naxis1.take fd.naxis0.length,
               fd.naxis0 ++ fd.naxis1.drop fd.naxis0.length⟩
  else Except.error PyErr.indexError

/-- `ScienceExposure.GetDispersionDirection(fitsdict, det)` (lines
151-222).  Returns the updated instance state together with the updated
`fitsdict`. -/
def GetDispersionDirection (ext : Extern) (st : SciExp) (fd : FitsDict)
    (det : ℤ) : Except PyErr (SciExp × FitsDict) := do
  -- lines 167-174
  let arcSlot ← pyGet st.msarc (det - 1)
  let ax ← detect_axis ext.dispdir st.argflag.direction arcSlot
  let st := { st with dispaxis := some ax }
  -- lines 176-179: shorter-axis warning is advisory; only the two
  -- `.shape` accesses on `self._msarc[det-1]` can fail
  let _ ← (match arcSlot with | some v => v.shape0 | none => Except.error PyErr.attrError)
  let _ ← (match arcSlot with | some v => v.shape1 | none => Except.error PyErr.attrError)
  let (st, fd) ←
    if ax = 1 then do
      -- line 187
      let st := { st with transpose := true }
      -- lines 190-192: transpose the master bias if it is an ndarray
      let biasSlot ← pyGet st.msbias (det - 1)
      let st ← (match biasSlot with
        | none => pure st
        | some (NPVal.str _) => pure st
        | some v => SetMasterFrame st (some v.T) "bias" det true)
      -- line 194: transpose the master arc
      let arcSlot2 ← pyGet st.msarc (det - 1)
      let arcv ← (match arcSlot2 with
        | some v => Except.ok v
        | none => Except.error PyErr.attrError)
      let st ← SetMasterFrame st (some arcv.T) "arc" det true
      -- lines 196-197: transpose the bad pixel mask if present
      let bpSlot ← pyGet st.bpix (det - 1)
      let st ← (match bpSlot with
        | none => pure st
        | some v => do
            let l ← SetFrame st.bpix v.T det true
            pure { st with bpix := l })
      -- line 199: transpose the amplifier sections frame
      let amSlot ← pyGet st.ampsec (det - 1)
      let amv ← (match amSlot with
        | some v => Except.ok v
        | none => Except.error PyErr.attrError)
      let l ← SetFrame st.ampsec amv.T det true
      let st := { st with ampsec := l }
      -- lines 201-204: swap the naxis keywords of every frame
      let fd ← swapNaxisKeys fd
      -- lines 206-209: swap the gaps, take the reciprocal pixel size
      let dp ← pyGet st.spectDet (det - 1)
      let dp := { dp with xgap := dp.ygap, ygap := dp.xgap }
      let newys ← (if dp.ysize = 0 then Except.error PyErr.zeroDivError
                   else Except.ok (1 / dp.ysize))
      let dp := { dp with ysize := newys }
      -- lines 211-215: reverse the per-amplifier section descriptors
      let amp ← flipSecs dp.numamplifiers dp.ampsec
      let dat ← flipSecs dp.numamplifiers dp.datasec
      let osc ← flipSecs dp.numamplifiers dp.oscansec
      let dp := { dp with ampsec := amp, datasec := dat, oscansec := osc }
      let sd ← pySet st.spectDet (det - 1) dp
      -- line 219
      let st := { st with spectDet := sd, dispaxis := some 0 }
      pure (st, fd)
    else pure (st, fd)
  -- line 221: unpack the (possibly transposed) arc's shape
  let arcSlot3 ← pyGet st.msarc (det - 1)
  let arcv3 ← (match arcSlot3 with
    | some (NPVal.mat m) => Except.ok m
    | some _ => Except.error PyErr.valueError
    | none => Except.error PyErr.attrError)
  let ns ← pySet st.nspec (det - 1) (some arcv3.length)
  let np ← pySet st.nspat (det - 1) (some (arcv3.headD []).length)
  pure ({ st with nspec := ns, nspat := np }, fd)

end ScienceExposure

namespace ScienceExposure

/-- The `subframes` stack `np.zeros((shape0, shape1, len(sframes)))` filled
plane by plane with the sub-masters; its layout is opaque to the external
`comb_frames` that consumes it. -/
def stackFrames (subs : List (List (List ℚ))) : NPVal := NPVal.cube subs

/-- All-ones 2-D array. -/
def onesMat (r c : ℕ) : List (List ℚ) := List.replicate r (List.replicate c 1)

/-- `np.ones_like` applied to the whole per-detector slot LIST
(`self._msarc`), as written at lines 414-415 of the source: stacking the
per-detector 2-D masters gives a 3-D `(ndet, nspec, nspat)` array, and its
ones-like has that same 3-D shape.  Modelled for the homogeneous case
(every slot a 2-D array of one shape); any other contents give numpy
object-array junk, modelled as an error. -/
def onesLikeSlots (slots : List (Option NPVal)) : Except PyErr NPVal :=
  match slots.mapM (fun s => match s with
    | some (NPVal.mat m) => some m
    | _ => none) with
  | some mats =>
    let r := (mats.headD []).length
    let c := ((mats.headD []).headD []).length
    if mats.all fun m => m.length = r ∧ (m.headD []).length = c then
      Except.ok (NPVal.cube (mats.map fun _ => onesMat r c))
    else Except.error PyErr.valueError
  | none => Except.error PyErr.valueError

/-- `ScienceExposure.MasterArc(fitsdict, det)` (lines 242-301). -/
def MasterArc (ext : Extern) (st : SciExp) (fd : FitsDict) (det : ℤ) :
    Except PyErr (Bool × SciExp) := do
  -- lines 259-261: cache-hit short circuit
  let cur ← pyGet st.msarc (det - 1)
  if cur ≠ none then
    pure (false, st)
  else do
    let msarc ←
      if st.argflag.usearc = "arc" then do
        let mb ← pyGet st.msbias (det - 1)
        let frames := ext.loadFrames fd st.idxArcs det "arc" mb false
        if 0 < st.argflag.arcmatch then
          -- line 269: `self._spect['det']['saturation']` indexes the
          -- per-detector LIST with a string: TypeError before match_frames
          Except.error PyErr.typeError
        else
          pure (ext.combFrames frames det "arc" none)
      else
        -- lines 295-297: load a previously saved master by name
        pure (ext.loadMaster (st.argflag.masterdir ++ "/" ++ st.argflag.usearc) none)
    let st ← SetMasterFrame st (some (NPVal.mat msarc)) "arc" det true
    pure (true, st)

/-- `ScienceExposure.MasterBias(fitsdict, det)` (lines 303-345). -/
def MasterBias (ext : Extern) (st : SciExp) (fd : FitsDict) (det : ℤ) :
    Except PyErr (Bool × SciExp) := do
  -- lines 321-323: cache-hit short circuit
  let cur ← pyGet st.msbias (det - 1)
  if cur ≠ none then
    pure (false, st)
  else if st.argflag.usebias = "bias" ∨ st.argflag.usebias = "dark" then do
    let frames := ext.loadFrames fd st.idxBias det st.argflag.usebias none st.transpose
    let msbias := ext.combFrames frames det st.argflag.usebias none
    let st ← SetMasterFrame st (some (NPVal.mat msbias)) "bias" det true
    pure (true, st)
  else if st.argflag.usebias = "overscan" then do
    let st ← SetMasterFrame st (some (NPVal.str "overscan")) "bias" det false
    pure (false, st)
  else if st.argflag.usebias = "none" then do
    let st ← SetMasterFrame st none "bias" det false
    pure (false, st)
  else do
    -- lines 339-341: any other string is the name of a file to load
    let msbias := ext.loadMaster (st.argflag.masterdir ++ "/" ++ st.argflag.usebias) (some "bias")
    let st ← SetMasterFrame st (some (NPVal.mat msbias)) "bias" det true
    pure (true, st)

/-- `ScienceExposure.MasterTrace(fitsdict, det)` (lines 420-470). -/
def MasterTrace (ext : Extern) (st : SciExp) (fd : FitsDict) (det : ℤ) :
    Except PyErr (Bool × SciExp) := do
  -- lines 438-440: cache-hit short circuit
  let cur ← pyGet st.mstrace (det - 1)
  if cur ≠ none then
    pure (false, st)
  else if st.argflag.usetrace = "trace" ∨ st.argflag.usetrace = "blzflat" then do
    let mb ← pyGet st.msbias (det - 1)
    let frames := ext.loadFrames fd st.idxTrace det "trace" mb st.transpose
    let mstrace ←
      if 0 < st.argflag.flatmatch then do
        -- lines 447-458 (note: the TRACE step consults `flatmatch`)
        let dp ← pyGet st.spectDet (det - 1)
        let sframes := ext.matchFrames frames st.argflag.flatmatch "trace"
          (Sum.inl (dp.saturation * dp.nonlinear))
        let numarr ← sframes.mapM NPVal.shape2
        let subs := sframes.map fun sf => ext.combFrames sf det "trace" none
        pure (ext.combFrames (stackFrames subs) det "trace"
          (some (numarr.map fun n => (n : ℚ))))
      else
        pure (ext.combFrames frames det "trace" none)
    let st ← SetMasterFrame st (some (NPVal.mat mstrace)) "trace" det true
    pure (true, st)
  else if st.argflag.usetrace = "science" then
    Except.error (PyErr.msgsError "Tracing with a science frame is not yet implemented")
  else do
    -- lines 464-466: any other string is the name of a file to load
    let mstrace := ext.loadMaster (st.argflag.masterdir ++ "/" ++ st.argflag.usetrace) none
    let st ← SetMasterFrame st (some (NPVal.mat mstrace)) "trace" det true
    pure (true, st)

/-- `ScienceExposure.MasterFlatField(fitsdict, det)` (lines 347-418). -/
def MasterFlatField (ext : Extern) (st : SciExp) (fd : FitsDict) (det : ℤ) :
    Except PyErr (Bool × SciExp) := do
  if st.argflag.flatfield then do
    let cur ← pyGet st.mspixflat (det - 1)
    if cur ≠ none then do
      -- lines 366-375: cache hit, but a missing normalized flat is
      -- computed and stored before returning False
      let nrm ← pyGet st.mspixflatnrm (det - 1)
      if nrm = none then do
        let pf ← GetMasterFrame st "pixflat" det true
        let pfv ← (match pf with
          | some v => Except.ok v
          | none => Except.error PyErr.attrError)
        let p := ext.flatnorm det pfv
        let bl ← SetFrame st.msblaze (NPVal.mat p.2) det true
        let st := { st with msblaze := bl }
        let st ← SetMasterFrame st (some (NPVal.mat p.1)) "normpixflat" det true
        pure (false, st)
      else
        pure (false, st)
    else do
      -- lines 377-409
      let mspixflat ←
        if st.argflag.useflat = "pixflat" ∨ st.argflag.useflat = "blzflat" then do
          let mb ← pyGet st.msbias (det - 1)
          let frames := ext.loadFrames fd st.idxFlat det "pixel flat" mb st.transpose
          if 0 < st.argflag.flatmatch then do
            let sframes := ext.matchFrames frames st.argflag.flatmatch "pixel flat"
              (Sum.inr st.nonlinear)
            let numarr ← sframes.mapM NPVal.shape2
            let subs := sframes.map fun sf => ext.combFrames sf det "pixel flat" none
            pure (ext.combFrames (stackFrames subs) det "pixel flat"
              (some (numarr.map fun n => (n : ℚ))))
          else
            pure (ext.combFrames frames det "pixel flat" none)
        else
          -- lines 404-406: load by name (note the `usepixflat` key here)
          pure (ext.loadMaster (st.argflag.masterdir ++ "/" ++ st.argflag.usepixflat) none)
      let p := ext.flatnorm det (NPVal.mat mspixflat)
      let bl ← SetFrame st.msblaze (NPVal.mat p.2) det true
      let st := { st with msblaze := bl }
      let st ← SetMasterFrame st (some (NPVal.mat mspixflat)) "pixflat" det true
      let st ← SetMasterFrame st (some (NPVal.mat p.1)) "normpixflat" det true
      pure (true, st)
  else do
    -- lines 411-417: flat fielding disabled; the placeholder is
    -- `np.ones_like(self._msarc)` over the whole slot list
    let ones ← onesLikeSlots st.msarc
    let st ← SetMasterFrame st (some ones) "pixflat" det true
    let st ← SetMasterFrame st (some ones) "normpixflat" det true
    pure (true, st)

end ScienceExposure

namespace ScienceExposure

/-- Reference-semantics refinement of the master-frame store, used to state
the deep-copy contract of `SetMasterFrame`/`GetMasterFrame`: ndarray values
live in heap cells, the slots and the callers hold references, and
`.copy()` allocates a fresh cell with equal contents. -/
structure Heap where
  cells : List (List (List ℚ))
  deriving DecidableEq, Repr

/-- Allocate a fresh cell; returns the new heap and the fresh reference. -/
def Heap.alloc (h : Heap) (v : List (List ℚ)) : Heap × ℕ :=
  (⟨h.cells ++ [v]⟩, h.cells.length)

/-- Dereference. -/
def Heap.read (h : Heap) (r : ℕ) : List (List ℚ) := h.cells.getD r []

/-- In-place mutation of the array a reference designates. -/
def Heap.write (h : Heap) (r : ℕ) (v : List (List ℚ)) : Heap :=
  ⟨h.cells.set r v⟩

/-- `frame.copy()` under reference semantics: a fresh cell holding equal
contents. -/
def Heap.copyRef (h : Heap) (r : ℕ) : Heap × ℕ := h.alloc (h.read r)

/-- The five master-frame slot lists of the store, holding references. -/
structure StoreH where
  msarc : List (Option ℕ)
  msbias : List (Option ℕ)
  mstrace : List (Option ℕ)
  mspixflat : List (Option ℕ)
  mspixflatnrm : List (Option ℕ)
  deriving DecidableEq, Repr

/-- `ScienceExposure.SetMasterFrame` (lines 496-509) under reference
semantics; same dispatch as the value-level `SetMasterFrame`. -/
def SetMasterFrameH (h : Heap) (st : StoreH) (frame : ℕ) (ftype : String)
    (det : ℤ) (copy : Bool := true) : Except PyErr (Heap × StoreH) := do
  let d := det - 1
  let pr := if copy then h.copyRef frame else (h, frame)
  let h := pr.1
  let cpf := pr.2
  if ftype = "arc" then
    let l ← pySet st.msarc d (some cpf)
    pure (h, { st with msarc := l })
  else if ftype = "bias" then
    let l ← pySet st.msbias d (some cpf)
    pure (h, { st with msbias := l })
  else if ftype = "normpixflat" then
    let l ← pySet st.mspixflatnrm d (some cpf)
    pure (h, { st with mspixflatnrm := l })
  else if ftype = "pixflat" then
    let l ← pySet st.mspixflat d (some cpf)
    pure (h, { st with mspixflat := l })
  else if ftype = "trace" then
    let l ← pySet st.mstrace d (some cpf)
    pure (h, { st with mstrace := l })
  else
    Except.error (PyErr.msgsError "Please contact the authors")

/-- `ScienceExposure.GetMasterFrame` (lines 519-541) under reference
semantics.  With `copy=True` a `None` slot dies on `None.copy()`; without
copying the reference in the slot (possibly `None`) is handed out. -/
def GetMasterFrameH (h : Heap) (st : StoreH) (ftype : String) (det : ℤ)
    (copy : Bool := true) : Except PyErr (Heap × Option ℕ) := do
  let d := det - 1
  let slot ←
    if ftype = "arc" then pure st.msarc
    else if ftype = "bias" then pure st.msbias
    else if ftype = "normpixflat" then pure st.mspixflatnrm
    else if ftype = "pixflat" then pure st.mspixflat
    else if ftype = "trace" then pure st.mstrace
    else Except.error (PyErr.msgsError "Please contact the authors")
  let v ← pyGet slot d
  if copy then
    match v with
    | some r =>
      let pr := h.copyRef r
      pure (pr.1, some pr.2)
    | none => Except.error PyErr.attrError
  else
    pure (h, v)

end ScienceExposure

namespace Spectrograph

/-- `Spectrograph.bpm(shape)` (`pypit/spectrographs/spectroclass.py`
lines 110-125): the generic bad-pixel mask, an all-zero INTEGER array of
exactly the given 2-D shape, explicitly returned.  Leaving `shape` at its
`None` default dies on `None[0]`. -/
def bpm (shape : Option (ℕ × ℕ)) : Except PyErr (List (List ℤ)) :=
  match shape with
  | none => Except.error PyErr.typeError
  | some (r, c) => Except.ok (List.replicate r (List.replicate c 0))

end Spectrograph

namespace KeckNIRSPECSpectrograph

/-- The edge mask built at lines 48-50 of
`pypit/spectrographs/keck_nirspec.py`: zeros, with columns `< 20` and
`>= 1000` set to one. -/
def edgeMask (r c : ℕ) : List (List ℚ) :=
  (List.range r).map fun _ =>
    (List.range c).map fun j => if j < 20 ∨ 1000 ≤ j then 1 else 0

/-- `KeckNIRSPECSpectrograph.bpm(shape)` (lines 34-50).  The body reads
`self.shape` -- an attribute no instance ever defines -- so on a real
instance the call dies with AttributeError; were a `shape` attribute
present, the body would assign the edge mask to `self.bpm` (clobbering the
method) and fall off the end, returning Python `None`.  The `shape`
ARGUMENT is never used.  Result: the returned value (`Option`, `none`
being Python None) paired with the value assigned to the `self.bpm`
attribute. -/
def bpm (selfShape : Option (ℕ × ℕ)) (shape : Option (ℕ × ℕ)) :
    Except PyErr (Option NPVal × List (List ℚ)) :=
  match selfShape with
  | none => Except.error PyErr.attrError
  | some (r, c) => Except.ok (none, edgeMask r c)

end KeckNIRSPECSpectrograph

/-- The transpose-branch output state of `GetDispersionDirection`
(spec-side abbreviation; its fields are the joint flip of every dependent
quantity of detector slot `k`). -/
def flippedState (st : SciExp) (k : ℕ) (a : List (List ℚ)) (b bp : Option NPVal)
    (am : NPVal) (dp : DetPar) : SciExp :=
  { st with
      transpose := true,
      dispaxis := some 0,
      msbias := (match b with
        | none => st.msbias
        | some (NPVal.str _) => st.msbias
        | some v => st.msbias.set k (some v.T)),
      msarc := st.msarc.set k (some (NPVal.mat (matT a))),
      bpix := (match bp with
        | none => st.bpix
        | some v => st.bpix.set k (some v.T)),
      ampsec := st.ampsec.set k (some am.T),
      spectDet := st.spectDet.set k
        { dp with
            xgap := dp.ygap,
            ygap := dp.xgap,
            ysize := 1 / dp.ysize,
            ampsec := (dp.ampsec.take dp.numamplifiers).map List.reverse ++
              dp.ampsec.drop dp.numamplifiers,
            datasec := (dp.datasec.take dp.numamplifiers).map List.reverse ++
              dp.datasec.drop dp.numamplifiers,
            oscansec := (dp.oscansec.take dp.numamplifiers).map List.reverse ++
              dp.oscansec.drop dp.numamplifiers },
      nspec := st.nspec.set k (some (matT a).length),
      nspat := st.nspat.set k (some ((matT a).headD []).length) }

/-- The bias-slot value after the transpose branch: `None` and the
`'overscan'` string are left alone, an ndarray is transposed. -/
def transposedIfArr : Option NPVal → Option NPVal
  | none => none
  | some (NPVal.str s) => some (NPVal.str s)
  | some v => some v.T

/-- The per-detector parameters after the transpose branch: gaps swapped,
pixel size reciprocated, each amplifier's section descriptors
order-reversed. -/
def flipDetPar (dp : DetPar) : DetPar :=
  { dp with
      xgap := dp.ygap,
      ygap := dp.xgap,
      ysize := 1 / dp.ysize,
      ampsec := (dp.ampsec.take dp.numamplifiers).map List.reverse ++
        dp.ampsec.drop dp.numamplifiers,
      datasec := (dp.datasec.take dp.numamplifiers).map List.reverse ++
        dp.datasec.drop dp.numamplifiers,
      oscansec := (dp.oscansec.take dp.numamplifiers).map List.reverse ++
        dp.oscansec.drop dp.numamplifiers }

/-! ## Concrete fixtures used by counterexamples and witnesses -/

/-- A concrete instantiation of the external collaborators. -/
def ext0 : Extern where
  dispdir := fun _ => 0
  loadFrames := fun _ _ _ _ _ _ => NPVal.cube [[[4]]]
  combFrames := fun _ _ _ _ => [[5]]
  matchFrames := fun _ _ _ _ => []
  loadMaster := fun _ _ => [[7]]
  flatnorm := fun _ _ => ([[2]], [[3]])

/-- `ext0` with an axis-detection routine that returns the out-of-range
axis 2. -/
def extBadAxis : Extern := { ext0 with dispdir := fun _ => 2 }

/-- A concrete per-detector parameter set (one amplifier). -/
def dp0 : DetPar where
  xgap := 1
  ygap := 2
  xsize := 1
  ysize := 2
  saturation := 65535
  nonlinear := 1
  numamplifiers := 1
  ampsec := [[[1, 2], [3, 4]]]
  datasec := [[[5, 6], [7, 8]]]
  oscansec := [[[9, 10], [11, 12]]]

/-- Settings with the dispersion direction configured to 1. -/
def af0 : ArgFlag where
  direction := some 1
  usebias := "bias"
  usearc := "arc"
  usetrace := "trace"
  useflat := "pixflat"
  usepixflat := "pixflat"
  flatfield := true
  badpix := true
  arcmatch := 0
  flatmatch := 0
  masterdir := "MasterFrames"

/-- A one-detector exposure whose arc master is a 3×2 array. -/
def st0 : SciExp where
  argflag := af0
  transpose := false
  dispaxis := none
  idxArcs := [0]
  idxBias := [1]
  idxTrace := [2]
  idxFlat := [3]
  nonlinear := [1]
  nspec := [none]
  nspat := [none]
  ampsec := [some (NPVal.mat [[0]])]
  bpix := [none]
  msarc := [some (NPVal.mat [[1, 2], [3, 4], [5, 6]])]
  msbias := [none]
  mstrace := [none]
  mspixflat := [none]
  mspixflatnrm := [none]
  msblaze := [none]
  spectDet := [dp0]

/-- A two-detector exposure (arc masters 3×2 and 1×2, one amplifier
each). -/
def st2d : SciExp where
  argflag := af0
  transpose := false
  dispaxis := none
  idxArcs := [0]
  idxBias := [1]
  idxTrace := [2]
  idxFlat := [3]
  nonlinear := [1, 1]
  nspec := [none, none]
  nspat := [none, none]
  ampsec := [some (NPVal.mat [[0]]), some (NPVal.mat [[9]])]
  bpix := [none, none]
  msarc := [some (NPVal.mat [[1, 2], [3, 4], [5, 6]]), some (NPVal.mat [[7, 8]])]
  msbias := [none, none]
  mstrace := [none, none]
  mspixflat := [none, none]
  mspixflatnrm := [none, none]
  msblaze := [none, none]
  spectDet := [dp0, dp0]

/-- Header keywords of a two-frame exposure. -/
def fd0 : FitsDict where
  naxis0 := [3, 100]
  naxis1 := [2, 50]

/-- Spec-side name for the joint effect of lines 201-204 on the header
keywords: every frame's `naxis0` and `naxis1` entries exchanged. -/
def swapFd (fd : FitsDict) : FitsDict := ⟨fd.naxis1, fd.naxis0⟩

/-- The slot list addressed by a master-frame kind in the value model
(spec-side accessor used to state slot-addressing properties uniformly
over the five kinds the source dispatches on). -/
def masterSlot (st : SciExp) : String → List (Option NPVal)
  | "arc" => st.msarc
  | "bias" => st.msbias
  | "normpixflat" => st.mspixflatnrm
  | "pixflat" => st.mspixflat
  | "trace" => st.mstrace
  | _ => []

/-- Replace the slot list a master-frame kind addresses (spec-side
constructor matching `masterSlot`). -/
def withMasterSlot (st : SciExp) (ftype : String) (l : List (Option NPVal)) :
    SciExp :=
  if ftype = "arc" then { st with msarc := l }
  else if ftype = "bias" then { st with msbias := l }
  else if ftype = "normpixflat" then { st with mspixflatnrm := l }
  else if ftype = "pixflat" then { st with mspixflat := l }
  else if ftype = "trace" then { st with mstrace := l }
  else st

/-- Replace the slot list a master-frame kind addresses in the
reference-heap model. -/
def withStoreSlot (st : ScienceExposure.StoreH) (ftype : String)
    (l : List (Option ℕ)) : ScienceExposure.StoreH :=
  if ftype = "arc" then { st with msarc := l }
  else if ftype = "bias" then { st with msbias := l }
  else if ftype = "normpixflat" then { st with mspixflatnrm := l }
  else if ftype = "pixflat" then { st with mspixflat := l }
  else if ftype = "trace" then { st with mstrace := l }
  else st

/-- The slot list addressed by a master-frame kind in the reference-heap
model. -/
def storeSlot (st : ScienceExposure.StoreH) : String → List (Option ℕ)
  | "arc" => st.msarc
  | "bias" => st.msbias
  | "normpixflat" => st.mspixflatnrm
  | "pixflat" => st.mspixflat
  | "trace" => st.mstrace
  | _ => []

/-! ## Helper lemmas about the Python list-indexing primitives -/

theorem pyIdx_of_nonneg {n : ℕ} {i : ℤ} (h0 : 0 ≤ i) (h1 : i < (n : ℤ)) :
    pyIdx n i = some i.toNat := by
  simp [pyIdx, h0, h1]

theorem pyIdx_lt {n : ℕ} {i : ℤ} {k : ℕ} (h : pyIdx n i = some k) : k < n := by
  unfold pyIdx at h
  split at h
  · rename_i hc
    cases h
    omega
  · split at h
    · rename_i hc
      cases h
      omega
    · cases h

theorem pyGet_eq {α : Type} {l : List α} {i : ℤ} {k : ℕ} {v : α}
    (hk : pyIdx l.length i = some k) (hv : l[k]? = some v) :
    pyGet l i = .ok v := by
  simp [pyGet, hk, hv]

theorem pySet_eq {α : Type} {l : List α} {i : ℤ} {k : ℕ} (v : α)
    (hk : pyIdx l.length i = some k) :
    pySet l i v = .ok (l.set k v) := by
  simp [pySet, hk]

theorem pyIdx_set {α : Type} {l : List α} {i : ℤ} {k : ℕ} (v : α)
    (hk : pyIdx l.length i = some k) :
    pyIdx (l.set k v).length i = some k := by
  simpa [List.length_set] using hk

/-- Reading back the slot just written. -/
theorem pyGet_set_self {α : Type} {l : List α} {i : ℤ} {k : ℕ} (v : α)
    (hk : pyIdx l.length i = some k) :
    pyGet (l.set k v) i = .ok v := by
  have hlt : k < l.length := pyIdx_lt hk
  exact pyGet_eq (pyIdx_set v hk) (List.getElem?_set_eq_of_lt v hlt)


theorem okBind {α β : Type} (a : α) (f : α → Except PyErr β) :
    (Except.ok a >>= f) = f a := rfl

theorem errBind {α β : Type} (e : PyErr) (f : α → Except PyErr β) :
    ((Except.error e : Except PyErr α) >>= f) = Except.error e := rfl

theorem pureEq {α : Type} (a : α) : (pure a : Except PyErr α) = Except.ok a := rfl

theorem pyIdx_natCast {n k : ℕ} (h : k < n) : pyIdx n (k : ℤ) = some k := by
  have := pyIdx_of_nonneg (n := n) (i := (k : ℤ)) (by exact_mod_cast Nat.zero_le k)
    (by exact_mod_cast h)
  simpa using this

theorem natCast_add_one_sub_one (k : ℕ) : ((k : ℤ) + 1) - 1 = (k : ℤ) := by ring

theorem NPVal.copy_of_isArr {v : NPVal} (h : v.isArr = true) :
    v.copy = Except.ok v := by
  cases v <;> simp_all [NPVal.copy, NPVal.isArr]

theorem NPVal.isArr_T {v : NPVal} (h : v.isArr = true) : v.T.isArr = true := by
  cases v <;> simp_all [NPVal.T, NPVal.isArr]

namespace ScienceExposure

theorem SetFrame_ok {l : List (Option NPVal)} {v : NPVal} {det : ℤ} {k : ℕ}
    (hv : v.isArr = true) (hk : pyIdx l.length (det - 1) = some k) :
    SetFrame l v det true = Except.ok (l.set k (some v)) := by
  simp [SetFrame, NPVal.copy_of_isArr hv, okBind, pySet_eq _ hk]

theorem SetMasterFrame_arc {st : SciExp} {v : NPVal} {det : ℤ} {k : ℕ}
    (hv : v.isArr = true) (hk : pyIdx st.msarc.length (det - 1) = some k) :
    SetMasterFrame st (some v) "arc" det true =
      Except.ok { st with msarc := st.msarc.set k (some v) } := by
  simp [SetMasterFrame, NPVal.copy_of_isArr hv, okBind, pureEq, pySet_eq _ hk]

theorem SetMasterFrame_bias {st : SciExp} {v : NPVal} {det : ℤ} {k : ℕ}
    (hv : v.isArr = true) (hk : pyIdx st.msbias.length (det - 1) = some k) :
    SetMasterFrame st (some v) "bias" det true =
      Except.ok { st with msbias := st.msbias.set k (some v) } := by
  simp [SetMasterFrame, NPVal.copy_of_isArr hv, okBind, pureEq, pySet_eq _ hk]

theorem SetMasterFrame_normpixflat {st : SciExp} {v : NPVal} {det : ℤ} {k : ℕ}
    (hv : v.isArr = true) (hk : pyIdx st.mspixflatnrm.length (det - 1) = some k) :
    SetMasterFrame st (some v) "normpixflat" det true =
      Except.ok { st with mspixflatnrm := st.mspixflatnrm.set k (some v) } := by
  simp [SetMasterFrame, NPVal.copy_of_isArr hv, okBind, pureEq, pySet_eq _ hk]

theorem SetMasterFrame_pixflat {st : SciExp} {v : NPVal} {det : ℤ} {k : ℕ}
    (hv : v.isArr = true) (hk : pyIdx st.mspixflat.length (det - 1) = some k) :
    SetMasterFrame st (some v) "pixflat" det true =
      Except.ok { st with mspixflat := st.mspixflat.set k (some v) } := by
  simp [SetMasterFrame, NPVal.copy_of_isArr hv, okBind, pureEq, pySet_eq _ hk]

theorem SetMasterFrame_trace {st : SciExp} {v : NPVal} {det : ℤ} {k : ℕ}
    (hv : v.isArr = true) (hk : pyIdx st.mstrace.length (det - 1) = some k) :
    SetMasterFrame st (some v) "trace" det true =
      Except.ok { st with mstrace := st.mstrace.set k (some v) } := by
  simp [SetMasterFrame, NPVal.copy_of_isArr hv, okBind, pureEq, pySet_eq _ hk]

theorem GetMasterFrame_pixflat {st : SciExp} {v : NPVal} {det : ℤ} {k : ℕ}
    (hv : v.isArr = true) (hk : pyIdx st.mspixflat.length (det - 1) = some k)
    (hs : st.mspixflat[k]? = some (some v)) :
    GetMasterFrame st "pixflat" det true = Except.ok (some v) := by
  simp [GetMasterFrame, okBind, pureEq, pyGet_eq hk hs, NPVal.copy_of_isArr hv]

end ScienceExposure

/-! ## C3: cache-hit behaviour of the master-building steps -/

/-- C3 (counterexample): with flat-fielding enabled, a cached pixel flat
and no cached normalized flat, `MasterFlatField` returns `False`
("already existed") yet is NOT a no-op: it computes the normalization and
writes both the blaze and the normalized-flat slots. -/
theorem C3_counterexample :
    ScienceExposure.MasterFlatField ext0
      { st0 with mspixflat := [some (NPVal.mat [[4]])] } fd0 1 =
    Except.ok (false,
      { st0 with
        mspixflat := [some (NPVal.mat [[4]])],
        msblaze := [some (NPVal.mat [[3]])],
        mspixflatnrm := [some (NPVal.mat [[2]])] }) := by
  rfl

/-- C3 (amended): `MasterBias`, `MasterArc`, `MasterTrace` are strict
no-ops returning `False` when the store already holds their product; so is
`MasterFlatField` when BOTH the pixel flat and the normalized flat are
cached; but on a pixel-flat cache hit with the normalized flat absent,
`MasterFlatField` still returns `False` while additionally computing and
storing the normalized flat and the blaze function. -/
theorem C3_cache_hit_behaviour :
    (∀ (ext : Extern) (st : SciExp) (fd : FitsDict) (det : ℤ) (v : NPVal),
      pyGet st.msarc (det - 1) = Except.ok (some v) →
      ScienceExposure.MasterArc ext st fd det = Except.ok (false, st)) ∧
    (∀ (ext : Extern) (st : SciExp) (fd : FitsDict) (det : ℤ) (v : NPVal),
      pyGet st.msbias (det - 1) = Except.ok (some v) →
      ScienceExposure.MasterBias ext st fd det = Except.ok (false, st)) ∧
    (∀ (ext : Extern) (st : SciExp) (fd : FitsDict) (det : ℤ) (v : NPVal),
      pyGet st.mstrace (det - 1) = Except.ok (some v) →
      ScienceExposure.MasterTrace ext st fd det = Except.ok (false, st)) ∧
    (∀ (ext : Extern) (st : SciExp) (fd : FitsDict) (det : ℤ) (v w : NPVal),
      st.argflag.flatfield = true →
      pyGet st.mspixflat (det - 1) = Except.ok (some v) →
      pyGet st.mspixflatnrm (det - 1) = Except.ok (some w) →
      ScienceExposure.MasterFlatField ext st fd det = Except.ok (false, st)) ∧
    (∀ (ext : Extern) (st : SciExp) (fd : FitsDict) (det : ℤ) (v : NPVal) (k : ℕ),
      st.argflag.flatfield = true →
      v.isArr = true →
      pyIdx st.mspixflat.length (det - 1) = some k →
      st.mspixflat[k]? = some (some v) →
      pyGet st.mspixflatnrm (det - 1) = Except.ok none →
      pyIdx st.msblaze.length (det - 1) = some k →
      pyIdx st.mspixflatnrm.length (det - 1) = some k →
      ScienceExposure.MasterFlatField ext st fd det =
        Except.ok (false,
          { st with
            msblaze := st.msblaze.set k (some (NPVal.mat (ext.flatnorm det v).2)),
            mspixflatnrm :=
              st.mspixflatnrm.set k (some (NPVal.mat (ext.flatnorm det v).1)) })) := by
  refine ⟨?_, ?_, ?_, ?_, ?_⟩
  · intro ext st fd det v h
    simp [ScienceExposure.MasterArc, h, okBind, pureEq]
  · intro ext st fd det v h
    simp [ScienceExposure.MasterBias, h, okBind, pureEq]
  · intro ext st fd det v h
    simp [ScienceExposure.MasterTrace, h, okBind, pureEq]
  · intro ext st fd det v w hff h1 h2
    simp [ScienceExposure.MasterFlatField, hff, h1, h2, okBind, pureEq]
  · intro ext st fd det v k hff hv hk hs hnrm hkb hkn
    simp [ScienceExposure.MasterFlatField, hff, pyGet_eq hk hs, hnrm, okBind, pureEq,
      ScienceExposure.GetMasterFrame_pixflat hv hk hs]
    rw [@ScienceExposure.SetFrame_ok st.msblaze (NPVal.mat (ext.flatnorm det v).2) det k rfl hkb,
      okBind,
      @ScienceExposure.SetMasterFrame_normpixflat
        { st with msblaze := st.msblaze.set k (some (NPVal.mat (ext.flatnorm det v).2)) }
        (NPVal.mat (ext.flatnorm det v).1) det k rfl hkn]
    rfl

/-- Witness for C3 at concrete one-detector states. -/
theorem C3_cache_hit_behaviour_witness :
    ScienceExposure.MasterArc ext0 st0 fd0 1 = Except.ok (false, st0) ∧
    ScienceExposure.MasterBias ext0 { st0 with msbias := [some (NPVal.mat [[1]])] } fd0 1 =
      Except.ok (false, { st0 with msbias := [some (NPVal.mat [[1]])] }) ∧
    ScienceExposure.MasterTrace ext0 { st0 with mstrace := [some (NPVal.mat [[1]])] } fd0 1 =
      Except.ok (false, { st0 with mstrace := [some (NPVal.mat [[1]])] }) ∧
    ScienceExposure.MasterFlatField ext0
      { st0 with mspixflat := [some (NPVal.mat [[4]])],
                 mspixflatnrm := [some (NPVal.mat [[5]])] } fd0 1 =
      Except.ok (false,
        { st0 with mspixflat := [some (NPVal.mat [[4]])],
                   mspixflatnrm := [some (NPVal.mat [[5]])] }) ∧
    ScienceExposure.MasterFlatField ext0
      { st0 with mspixflat := [some (NPVal.mat [[8]])] } fd0 1 =
      Except.ok (false,
        { st0 with mspixflat := [some (NPVal.mat [[8]])],
                   msblaze := [some (NPVal.mat [[3]])],
                   mspixflatnrm := [some (NPVal.mat [[2]])] }) :=
  ⟨C3_cache_hit_behaviour.1 ext0 st0 fd0 1 (NPVal.mat [[1, 2], [3, 4], [5, 6]]) rfl,
   C3_cache_hit_behaviour.2.1 ext0 _ fd0 1 (NPVal.mat [[1]]) rfl,
   C3_cache_hit_behaviour.2.2.1 ext0 _ fd0 1 (NPVal.mat [[1]]) rfl,
   C3_cache_hit_behaviour.2.2.2.1 ext0 _ fd0 1 (NPVal.mat [[4]]) (NPVal.mat [[5]]) rfl rfl rfl,
   C3_cache_hit_behaviour.2.2.2.2 ext0 _ fd0 1 (NPVal.mat [[8]]) 0 rfl rfl rfl rfl rfl rfl rfl⟩

theorem pyIdx_neg_one {n : ℕ} (h : 0 < n) : pyIdx n (-1) = some (n - 1) := by
  have h1 : ¬(0 ≤ (-1 : ℤ) ∧ (-1 : ℤ) < (n : ℤ)) := by omega
  have h2 : -(n : ℤ) ≤ -1 ∧ (-1 : ℤ) < 0 := by omega
  simp only [pyIdx, if_neg h1, if_pos h2]
  congr 1
  omega

/-! ## C5: slot addressing of the master-frame store -/

/-- C5 (counterexample): on a two-detector store, `SetMasterFrame` with
detector index 0 does NOT fail — Python's negative indexing silently
writes the LAST detector's slot (here detector 2's arc). -/
theorem C5_counterexample :
    ScienceExposure.SetMasterFrame
      { st0 with msarc := [some (NPVal.mat [[1]]), some (NPVal.mat [[2]])] }
      (some (NPVal.mat [[9]])) "arc" 0 true =
    Except.ok
      { st0 with msarc := [some (NPVal.mat [[1]]), some (NPVal.mat [[9]])] } := by
  rfl

/-- C5 (amended): for every master-frame kind, an in-range detector index
`det` addresses exactly slot `det - 1` (all other slots unchanged), and an
index with no Python resolution fails with IndexError; but detector index
0 does not fail — it aliases the LAST detector's slot via Python negative
indexing. -/
theorem C5_slot_addressing :
    (∀ (st : SciExp) (v : NPVal) (ftype : String) (det : ℤ) (k : ℕ),
      (ftype = "arc" ∨ ftype = "bias" ∨ ftype = "normpixflat" ∨
        ftype = "pixflat" ∨ ftype = "trace") →
      v.isArr = true →
      pyIdx (masterSlot st ftype).length (det - 1) = some k →
      ScienceExposure.SetMasterFrame st (some v) ftype det true =
        Except.ok (withMasterSlot st ftype ((masterSlot st ftype).set k (some v)))) ∧
    (∀ (st : SciExp) (ftype : String) (det : ℤ) (k : ℕ) (w : Option NPVal),
      (ftype = "arc" ∨ ftype = "bias" ∨ ftype = "normpixflat" ∨
        ftype = "pixflat" ∨ ftype = "trace") →
      pyIdx (masterSlot st ftype).length (det - 1) = some k →
      (masterSlot st ftype)[k]? = some w →
      ScienceExposure.GetMasterFrame st ftype det false = Except.ok w) ∧
    (∀ (st : SciExp) (v : NPVal) (ftype : String) (det : ℤ),
      (ftype = "arc" ∨ ftype = "bias" ∨ ftype = "normpixflat" ∨
        ftype = "pixflat" ∨ ftype = "trace") →
      v.isArr = true →
      pyIdx (masterSlot st ftype).length (det - 1) = none →
      ScienceExposure.SetMasterFrame st (some v) ftype det true =
        Except.error PyErr.indexError) ∧
    (∀ (st : SciExp) (v : NPVal),
      v.isArr = true → st.msarc ≠ [] →
      ScienceExposure.SetMasterFrame st (some v) "arc" 0 true =
        Except.ok { st with msarc := st.msarc.set (st.msarc.length - 1) (some v) }) := by
  refine ⟨?_, ?_, ?_, ?_⟩
  · intro st v ftype det k hft hv hk
    rcases hft with rfl | rfl | rfl | rfl | rfl
    · simp only [masterSlot] at hk ⊢
      simp [withMasterSlot, ScienceExposure.SetMasterFrame_arc hv hk]
    · simp only [masterSlot] at hk ⊢
      simp [withMasterSlot, ScienceExposure.SetMasterFrame_bias hv hk]
    · simp only [masterSlot] at hk ⊢
      simp [withMasterSlot, ScienceExposure.SetMasterFrame_normpixflat hv hk]
    · simp only [masterSlot] at hk ⊢
      simp [withMasterSlot, ScienceExposure.SetMasterFrame_pixflat hv hk]
    · simp only [masterSlot] at hk ⊢
      simp [withMasterSlot, ScienceExposure.SetMasterFrame_trace hv hk]
  · intro st ftype det k w hft hk hs
    rcases hft with rfl | rfl | rfl | rfl | rfl <;>
      simp only [masterSlot] at hk hs <;>
      simp [ScienceExposure.GetMasterFrame, okBind, pureEq, pyGet_eq hk hs]
  · intro st v ftype det hft hv hk
    rcases hft with rfl | rfl | rfl | rfl | rfl <;>
      simp only [masterSlot] at hk <;>
      simp [ScienceExposure.SetMasterFrame, NPVal.copy_of_isArr hv, okBind, errBind,
        pureEq, pySet, hk]
  · intro st v hv hne
    have hlen : 0 < st.msarc.length := List.length_pos.mpr hne
    have hz : ((0 : ℤ) - 1) = (-1 : ℤ) := by norm_num
    have hk : pyIdx st.msarc.length ((0 : ℤ) - 1) = some (st.msarc.length - 1) := by
      rw [hz]
      exact pyIdx_neg_one hlen
    exact ScienceExposure.SetMasterFrame_arc hv hk

/-- Witness for C5 at a concrete store. -/
theorem C5_slot_addressing_witness :
    ScienceExposure.SetMasterFrame st0 (some (NPVal.mat [[9]])) "bias" 1 true =
      Except.ok (withMasterSlot st0 "bias"
        ((masterSlot st0 "bias").set 0 (some (NPVal.mat [[9]])))) ∧
    ScienceExposure.GetMasterFrame st0 "arc" 1 false =
      Except.ok (some (NPVal.mat [[1, 2], [3, 4], [5, 6]])) ∧
    ScienceExposure.SetMasterFrame st0 (some (NPVal.mat [[9]])) "trace" 5 true =
      Except.error PyErr.indexError ∧
    ScienceExposure.SetMasterFrame st0 (some (NPVal.mat [[9]])) "arc" 0 true =
      Except.ok
        { st0 with msarc := st0.msarc.set (st0.msarc.length - 1) (some (NPVal.mat [[9]])) } :=
  ⟨C5_slot_addressing.1 st0 _ "bias" 1 0 (Or.inr (Or.inl rfl)) rfl rfl,
   C5_slot_addressing.2.1 st0 "arc" 1 0 _ (Or.inl rfl) rfl rfl,
   C5_slot_addressing.2.2.1 st0 _ "trace" 5 (Or.inr (Or.inr (Or.inr (Or.inr rfl)))) rfl rfl,
   C5_slot_addressing.2.2.2 st0 _ rfl (by decide)⟩

/-! ## C7: source-mode resolution of the bias/arc/trace steps -/

/-- C7 (counterexample): a configured bias source mode that is none of the
recognized keywords does not fail with any unknown-source-mode error; the
step silently treats it as the name of a master file to load, stores the
loaded frame, and reports success. -/
theorem C7_counterexample :
    ScienceExposure.MasterBias ext0
      { st0 with argflag := { af0 with usebias := "unrecognized-mode" } } fd0 1 =
    Except.ok (true,
      { st0 with
        argflag := { af0 with usebias := "unrecognized-mode" },
        msbias := [some (NPVal.mat [[7]])] }) := by
  rfl

/-- C7 (amended): the bias/arc/trace steps have no unknown-mode failure:
any configured mode string other than the recognized keywords ('bias' or
'dark', 'overscan', 'none' for the bias step; 'arc' for the arc step;
'trace', 'blzflat', 'science' for the trace step) is unconditionally
interpreted as the identifier of a previously saved master to load, and
the step succeeds, storing the loaded frame.  (For the trace step,
'science' is recognized but fails with a distinct not-yet-implemented
fatal error.) -/
theorem C7_unknown_mode_behaviour :
    (∀ (ext : Extern) (st : SciExp) (fd : FitsDict) (det : ℤ) (k : ℕ),
      st.argflag.usebias ≠ "bias" → st.argflag.usebias ≠ "dark" →
      st.argflag.usebias ≠ "overscan" → st.argflag.usebias ≠ "none" →
      pyGet st.msbias (det - 1) = Except.ok none →
      pyIdx st.msbias.length (det - 1) = some k →
      ScienceExposure.MasterBias ext st fd det =
        Except.ok (true, { st with msbias := st.msbias.set k (some (NPVal.mat
          (ext.loadMaster (st.argflag.masterdir ++ "/" ++ st.argflag.usebias)
            (some "bias")))) })) ∧
    (∀ (ext : Extern) (st : SciExp) (fd : FitsDict) (det : ℤ) (k : ℕ),
      st.argflag.usearc ≠ "arc" →
      pyGet st.msarc (det - 1) = Except.ok none →
      pyIdx st.msarc.length (det - 1) = some k →
      ScienceExposure.MasterArc ext st fd det =
        Except.ok (true, { st with msarc := st.msarc.set k (some (NPVal.mat
          (ext.loadMaster (st.argflag.masterdir ++ "/" ++ st.argflag.usearc)
            none))) })) ∧
    (∀ (ext : Extern) (st : SciExp) (fd : FitsDict) (det : ℤ) (k : ℕ),
      st.argflag.usetrace ≠ "trace" → st.argflag.usetrace ≠ "blzflat" →
      st.argflag.usetrace ≠ "science" →
      pyGet st.mstrace (det - 1) = Except.ok none →
      pyIdx st.mstrace.length (det - 1) = some k →
      ScienceExposure.MasterTrace ext st fd det =
        Except.ok (true, { st with mstrace := st.mstrace.set k (some (NPVal.mat
          (ext.loadMaster (st.argflag.masterdir ++ "/" ++ st.argflag.usetrace)
            none))) })) ∧
    (∀ (ext : Extern) (st : SciExp) (fd : FitsDict) (det : ℤ),
      st.argflag.usetrace = "science" →
      pyGet st.mstrace (det - 1) = Except.ok none →
      ScienceExposure.MasterTrace ext st fd det =
        Except.error (PyErr.msgsError
          "Tracing with a science frame is not yet implemented")) := by
  refine ⟨?_, ?_, ?_, ?_⟩
  · intro ext st fd det k h1 h2 h3 h4 hget hk
    simp [ScienceExposure.MasterBias, hget, h1, h2, h3, h4, okBind, pureEq,
      @ScienceExposure.SetMasterFrame_bias st (NPVal.mat
        (ext.loadMaster (st.argflag.masterdir ++ "/" ++ st.argflag.usebias)
          (some "bias"))) det k rfl hk]
  · intro ext st fd det k h1 hget hk
    simp [ScienceExposure.MasterArc, hget, h1, okBind, pureEq,
      @ScienceExposure.SetMasterFrame_arc st (NPVal.mat
        (ext.loadMaster (st.argflag.masterdir ++ "/" ++ st.argflag.usearc)
          none)) det k rfl hk]
  · intro ext st fd det k h1 h2 h3 hget hk
    simp [ScienceExposure.MasterTrace, hget, h1, h2, h3, okBind, pureEq,
      @ScienceExposure.SetMasterFrame_trace st (NPVal.mat
        (ext.loadMaster (st.argflag.masterdir ++ "/" ++ st.argflag.usetrace)
          none)) det k rfl hk]
  · intro ext st fd det h1 hget
    simp [ScienceExposure.MasterTrace, hget, h1, okBind, pureEq]

/-- Witness for C7 at concrete states. -/
theorem C7_unknown_mode_behaviour_witness :
    ScienceExposure.MasterBias ext0
      { st0 with argflag := { af0 with usebias := "xbias" } } fd0 1 =
      Except.ok (true,
        { st0 with
          argflag := { af0 with usebias := "xbias" },
          msbias := [some (NPVal.mat (ext0.loadMaster ("MasterFrames" ++ "/" ++ "xbias")
            (some "bias")))] }) ∧
    ScienceExposure.MasterArc ext0
      { st0 with argflag := { af0 with usearc := "xarc" }, msarc := [none] } fd0 1 =
      Except.ok (true,
        { st0 with
          argflag := { af0 with usearc := "xarc" },
          msarc := [some (NPVal.mat (ext0.loadMaster ("MasterFrames" ++ "/" ++ "xarc")
            none))] }) ∧
    ScienceExposure.MasterTrace ext0
      { st0 with argflag := { af0 with usetrace := "xtrace" } } fd0 1 =
      Except.ok (true,
        { st0 with
          argflag := { af0 with usetrace := "xtrace" },
          mstrace := [some (NPVal.mat (ext0.loadMaster ("MasterFrames" ++ "/" ++ "xtrace")
            none))] }) ∧
    ScienceExposure.MasterTrace ext0
      { st0 with argflag := { af0 with usetrace := "science" } } fd0 1 =
      Except.error (PyErr.msgsError
        "Tracing with a science frame is not yet implemented") :=
  ⟨C7_unknown_mode_behaviour.1 ext0 _ fd0 1 0 (by decide) (by decide) (by decide)
      (by decide) rfl rfl,
   C7_unknown_mode_behaviour.2.1 ext0 _ fd0 1 0 (by decide) rfl rfl,
   C7_unknown_mode_behaviour.2.2.1 ext0 _ fd0 1 0 (by decide) (by decide) (by decide)
      rfl rfl,
   C7_unknown_mode_behaviour.2.2.2 ext0 _ fd0 1 rfl rfl⟩

/-! ## C9: bad-pixel-mask generators -/

/-- C9 (code bug): the generic `Spectrograph.bpm` does return an all-zero
integer mask of exactly the requested shape, but the Keck/NIRSPEC override
never returns a mask: on a real instance (which has no `shape` attribute)
it dies with AttributeError, and even granting a `shape` attribute it
assigns the mask to the `self.bpm` attribute as a side effect and returns
Python `None` — contradicting its own docstring ("Returns: badpix :
ndarray"). -/
theorem C9_bpm_evaluation :
    Spectrograph.bpm (some (2, 3)) = Except.ok [[0, 0, 0], [0, 0, 0]] ∧
    KeckNIRSPECSpectrograph.bpm none (some (2, 1050)) =
      Except.error PyErr.attrError ∧
    KeckNIRSPECSpectrograph.bpm (some (2, 1050)) (some (2, 1050)) =
      Except.ok (none, KeckNIRSPECSpectrograph.edgeMask 2 1050) := by
  exact ⟨rfl, rfl, rfl⟩

/-! ## C4: flat-fielding disabled placeholder -/

/-- C4 (code bug): with flat-fielding disabled, `MasterFlatField` does
store an all-ones placeholder in both flat slots and reports success, but
the placeholder is `np.ones_like(self._msarc)` — ones-like of the whole
per-detector slot LIST, a 3-D array of shape `(ndet, nspec, nspat)` (here
`(1, 3, 2)`), not a 2-D array matching the detector's arc master shape
`(3, 2)`. -/
theorem C4_flat_disabled_placeholder :
    ScienceExposure.MasterFlatField ext0
      { st0 with argflag := { af0 with flatfield := false } } fd0 1 =
      Except.ok (true,
        { st0 with
          argflag := { af0 with flatfield := false },
          mspixflat := [some (NPVal.cube [[[1, 1], [1, 1], [1, 1]]])],
          mspixflatnrm := [some (NPVal.cube [[[1, 1], [1, 1], [1, 1]]])] }) ∧
    some (NPVal.cube [[[1, 1], [1, 1], [1, 1]]]) ≠
      some (NPVal.mat (ScienceExposure.onesMat 3 2)) := by
  exact ⟨rfl, by decide⟩

/-! ## C8: dispersion-axis determination -/

/-- C8 (counterexample): when the configured direction is unset and the
external axis-detection routine returns 2 (outside {0,1}), the code does
NOT fail — it adopts and keeps the invalid axis value. -/
theorem C8_counterexample :
    ScienceExposure.GetDispersionDirection extBadAxis
      { st0 with argflag := { af0 with direction := none } } fd0 1 =
    Except.ok
      ({ st0 with
         argflag := { af0 with direction := none },
         dispaxis := some 2,
         nspec := [some 3],
         nspat := [some 2] }, fd0) := by
  rfl

/-- C8 (amended): an explicitly configured direction in {0,1} is used as
is; an explicitly configured direction outside {0,1} is a fatal error;
an unset direction is filled by the external detection routine, whose
result is adopted WITHOUT validation — a computed value outside {0,1} is
kept (the whole geometry step then completes normally with the invalid
axis recorded). -/
theorem C8_detect_axis_behaviour :
    (∀ (f : NPVal → ℤ) (s : Option NPVal) (d : ℤ), d = 0 ∨ d = 1 →
      ScienceExposure.detect_axis f (some d) s = Except.ok d) ∧
    (∀ (f : NPVal → ℤ) (s : Option NPVal) (d : ℤ), ¬(d = 0 ∨ d = 1) →
      ScienceExposure.detect_axis f (some d) s =
        Except.error (PyErr.msgsError
          "The argument for the dispersion direction must be either 0 or 1")) ∧
    (∀ (f : NPVal → ℤ) (v : NPVal),
      ScienceExposure.detect_axis f none (some v) = Except.ok (f v)) ∧
    (∀ (ext : Extern) (st : SciExp) (fd : FitsDict) (det : ℤ) (k : ℕ)
        (a : List (List ℚ)),
      st.argflag.direction = none →
      pyIdx st.msarc.length (det - 1) = some k →
      st.msarc[k]? = some (some (NPVal.mat a)) →
      pyIdx st.nspec.length (det - 1) = some k →
      pyIdx st.nspat.length (det - 1) = some k →
      ext.dispdir (NPVal.mat a) ≠ 1 →
      ScienceExposure.GetDispersionDirection ext st fd det =
        Except.ok ({ st with
          dispaxis := some (ext.dispdir (NPVal.mat a)),
          nspec := st.nspec.set k (some a.length),
          nspat := st.nspat.set k (some (a.headD []).length) }, fd)) := by
  refine ⟨?_, ?_, ?_, ?_⟩
  · intro f s d hd
    simp [ScienceExposure.detect_axis, hd]
  · intro f s d hd
    simp [ScienceExposure.detect_axis, hd]
  · intro f v
    simp [ScienceExposure.detect_axis]
  · intro ext st fd det k a hdir hk hs hk2 hk3 hne
    simp [ScienceExposure.GetDispersionDirection, ScienceExposure.detect_axis, hdir,
      pyGet_eq hk hs, hne, NPVal.shape0, NPVal.shape1, okBind, pureEq, pySet_eq,
      hk2, hk3]

/-- Witness for C8 at concrete inputs. -/
theorem C8_detect_axis_behaviour_witness :
    ScienceExposure.detect_axis ext0.dispdir (some 0) (some (NPVal.mat [[1]])) =
      Except.ok 0 ∧
    ScienceExposure.detect_axis ext0.dispdir (some 5) none =
      Except.error (PyErr.msgsError
        "The argument for the dispersion direction must be either 0 or 1") ∧
    ScienceExposure.detect_axis extBadAxis.dispdir none (some (NPVal.mat [[1]])) =
      Except.ok 2 ∧
    ScienceExposure.GetDispersionDirection extBadAxis
      { st0 with argflag := { af0 with direction := none },
                 msbias := [some (NPVal.str "overscan")] } fd0 1 =
      Except.ok
        ({ st0 with
           argflag := { af0 with direction := none },
           msbias := [some (NPVal.str "overscan")],
           dispaxis := some 2,
           nspec := [some 3],
           nspat := [some 2] }, fd0) :=
  ⟨C8_detect_axis_behaviour.1 ext0.dispdir (some (NPVal.mat [[1]])) 0 (Or.inl rfl),
   C8_detect_axis_behaviour.2.1 ext0.dispdir none 5 (by decide),
   C8_detect_axis_behaviour.2.2.1 extBadAxis.dispdir (NPVal.mat [[1]]),
   C8_detect_axis_behaviour.2.2.2 extBadAxis _ fd0 1 0 [[1, 2], [3, 4], [5, 6]]
     rfl rfl rfl rfl rfl (by decide)⟩

/-! ## C6: deep-copy semantics of the store (reference model) -/

theorem Heap.read_alloc_self (h : ScienceExposure.Heap) (v : List (List ℚ)) :
    ((h.alloc v).1).read (h.alloc v).2 = v := by
  simp [ScienceExposure.Heap.alloc, ScienceExposure.Heap.read,
    List.getD_append_right, Nat.sub_self]

theorem Heap.read_alloc_lt (h : ScienceExposure.Heap) (v : List (List ℚ)) {r : ℕ}
    (hr : r < h.cells.length) :
    ((h.alloc v).1).read r = h.read r := by
  simp [ScienceExposure.Heap.alloc, ScienceExposure.Heap.read,
    List.getD_append _ _ _ _ hr, List.getElem?_append, hr]

theorem Heap.read_write_ne (h : ScienceExposure.Heap) {r s : ℕ} (w : List (List ℚ))
    (hne : s ≠ r) :
    (h.write r w).read s = h.read s := by
  simp [ScienceExposure.Heap.write, ScienceExposure.Heap.read,
    List.getD_eq_getD_get?, List.get?_eq_getElem?, List.getElem?_set_ne (by omega : r ≠ s)]

/-- C6 (counterexample): 'blaze' is NOT a kind the store's setter/getter
dispatch accepts — `SetMasterFrame` with ftype 'blaze' dies with the
fatal "Please contact the authors" error instead of storing anything
(the blaze function is stored through the generic `SetFrame` instead). -/
theorem C6_counterexample :
    ScienceExposure.SetMasterFrameH ⟨[[[1]]]⟩
      ⟨[none], [none], [none], [none], [none]⟩ 0 "blaze" 1 true =
    Except.error (PyErr.msgsError "Please contact the authors") := by
  rfl

/-- C6 (amended): for the five kinds the dispatch accepts, set followed by
get (both copying) returns a REFERENCE distinct from the slot's, whose
contents equal what was set; mutating through the returned reference
leaves the store's cell unchanged. -/
theorem C6_deep_copy :
    ∀ (h0 : ScienceExposure.Heap) (st : ScienceExposure.StoreH) (r : ℕ)
      (ftype : String) (det : ℤ) (k : ℕ) (mv : List (List ℚ)),
      (ftype = "arc" ∨ ftype = "bias" ∨ ftype = "normpixflat" ∨
        ftype = "pixflat" ∨ ftype = "trace") →
      pyIdx (storeSlot st ftype).length (det - 1) = some k →
      ScienceExposure.SetMasterFrameH h0 st r ftype det true =
        Except.ok (⟨h0.cells ++ [h0.read r]⟩,
          withStoreSlot st ftype
            ((storeSlot st ftype).set k (some h0.cells.length))) ∧
      ScienceExposure.GetMasterFrameH ⟨h0.cells ++ [h0.read r]⟩
          (withStoreSlot st ftype
            ((storeSlot st ftype).set k (some h0.cells.length))) ftype det true =
        Except.ok (⟨(h0.cells ++ [h0.read r]) ++ [h0.read r]⟩,
          some (h0.cells.length + 1)) ∧
      h0.cells.length + 1 ≠ h0.cells.length ∧
      (⟨(h0.cells ++ [h0.read r]) ++ [h0.read r]⟩ : ScienceExposure.Heap).read
          (h0.cells.length + 1) = h0.read r ∧
      (ScienceExposure.Heap.write ⟨(h0.cells ++ [h0.read r]) ++ [h0.read r]⟩
          (h0.cells.length + 1) mv).read h0.cells.length = h0.read r := by
  intro h0 st r ftype det k mv hft hk
  have hk2 : pyIdx ((storeSlot st ftype).set k (some h0.cells.length)).length (det - 1) =
      some k := pyIdx_set _ hk
  have hget : pyGet ((storeSlot st ftype).set k (some h0.cells.length)) (det - 1) =
      Except.ok (some h0.cells.length) := pyGet_set_self _ hk
  have hr4 : (⟨(h0.cells ++ [h0.read r]) ++ [h0.read r]⟩ :
      ScienceExposure.Heap).read (h0.cells.length + 1) = h0.read r := by
    have := Heap.read_alloc_self (⟨h0.cells ++ [h0.read r]⟩ : ScienceExposure.Heap)
      (h0.read r)
    simpa [ScienceExposure.Heap.alloc] using this
  refine ⟨?_, ?_, by omega, hr4, ?_⟩
  · rcases hft with rfl | rfl | rfl | rfl | rfl <;>
      simp only [storeSlot] at hk <;>
      simp [ScienceExposure.SetMasterFrameH, ScienceExposure.Heap.copyRef,
        ScienceExposure.Heap.alloc, storeSlot, withStoreSlot, okBind, pureEq,
        pySet_eq _ hk]
  · have hrd : (⟨h0.cells ++ [h0.read r]⟩ : ScienceExposure.Heap).read
        h0.cells.length = h0.read r := by
      have := Heap.read_alloc_self h0 (h0.read r)
      simpa [ScienceExposure.Heap.alloc] using this
    rcases hft with rfl | rfl | rfl | rfl | rfl <;>
      simp only [storeSlot] at hk hk2 hget <;>
      simp [ScienceExposure.GetMasterFrameH, ScienceExposure.Heap.copyRef,
        ScienceExposure.Heap.alloc, storeSlot, withStoreSlot, okBind, pureEq,
        hget, hrd]
  · rw [Heap.read_write_ne _ _ (by omega)]
    show ((h0.cells ++ [h0.read r]) ++ [h0.read r]).getD h0.cells.length [] = h0.read r
    rw [List.append_assoc, List.getD_append_right _ _ _ _ (le_refl _), Nat.sub_self]
    rfl

/-- Witness for C6 at a concrete one-cell heap and empty one-detector
store. -/
theorem C6_deep_copy_witness :
    ScienceExposure.SetMasterFrameH ⟨[[[1]]]⟩
        ⟨[none], [none], [none], [none], [none]⟩ 0 "arc" 1 true =
      Except.ok (⟨[[[1]], [[1]]]⟩, ⟨[some 1], [none], [none], [none], [none]⟩) ∧
    ScienceExposure.GetMasterFrameH ⟨[[[1]], [[1]]]⟩
        ⟨[some 1], [none], [none], [none], [none]⟩ "arc" 1 true =
      Except.ok (⟨[[[1]], [[1]], [[1]]]⟩, some 2) ∧
    (2 : ℕ) ≠ 1 ∧
    (⟨[[[1]], [[1]], [[1]]]⟩ : ScienceExposure.Heap).read 2 = [[1]] ∧
    (ScienceExposure.Heap.write ⟨[[[1]], [[1]], [[1]]]⟩ 2 [[99]]).read 1 = [[1]] := by
  exact C6_deep_copy ⟨[[[1]]]⟩ ⟨[none], [none], [none], [none], [none]⟩ 0 "arc" 1 0
    [[99]] (Or.inl rfl) rfl

/-! ## The transpose branch of GetDispersionDirection -/

theorem swapNaxisKeys_of_length_eq {fd : FitsDict}
    (hfd : fd.naxis0.length = fd.naxis1.length) :
    ScienceExposure.swapNaxisKeys fd = Except.ok (swapFd fd) := by
  simp [ScienceExposure.swapNaxisKeys, swapFd, hfd, List.take_length, List.drop_length]

theorem flipSecs_of_le {n : ℕ} {l : List (List (List ℤ))} (hn : n ≤ l.length) :
    ScienceExposure.flipSecs n l =
      Except.ok ((l.take n).map List.reverse ++ l.drop n) := by
  simp [ScienceExposure.flipSecs, hn]

set_option maxHeartbeats 4000000 in
theorem ScienceExposure.GDD_axis1_spec
    (ext : Extern) (st : SciExp) (fd : FitsDict) (det : ℤ) (k : ℕ)
    (a : List (List ℚ)) (b bp : Option NPVal) (am : NPVal) (dp : DetPar)
    (hk_arc : pyIdx st.msarc.length (det - 1) = some k)
    (ha : st.msarc[k]? = some (some (NPVal.mat a)))
    (hax : ScienceExposure.detect_axis ext.dispdir st.argflag.direction
      (some (NPVal.mat a)) = Except.ok 1)
    (hk_bias : pyIdx st.msbias.length (det - 1) = some k)
    (hb : st.msbias[k]? = some b)
    (hk_bpix : pyIdx st.bpix.length (det - 1) = some k)
    (hbp : st.bpix[k]? = some bp)
    (hbpArr : ∀ s, bp ≠ some (NPVal.str s))
    (hk_amp : pyIdx st.ampsec.length (det - 1) = some k)
    (ham : st.ampsec[k]? = some (some am))
    (hamArr : am.isArr = true)
    (hfd : fd.naxis0.length = fd.naxis1.length)
    (hk_dp : pyIdx st.spectDet.length (det - 1) = some k)
    (hdp : st.spectDet[k]? = some dp)
    (hys : dp.ysize ≠ 0)
    (hn1 : dp.numamplifiers ≤ dp.ampsec.length)
    (hn2 : dp.numamplifiers ≤ dp.datasec.length)
    (hn3 : dp.numamplifiers ≤ dp.oscansec.length)
    (hk_ns : pyIdx st.nspec.length (det - 1) = some k)
    (hk_np : pyIdx st.nspat.length (det - 1) = some k) :
    ScienceExposure.GetDispersionDirection ext st fd det =
      Except.ok (flippedState st k a b bp am dp, swapFd fd) := by
  cases am
  case str s => simp [NPVal.isArr] at hamArr
  all_goals
    rcases b with _ | bv <;> rcases bp with _ | bpv <;>
      (try cases bv) <;> (try cases bpv) <;>
      first
        | exact absurd rfl (hbpArr _)
        | simp [ScienceExposure.GetDispersionDirection, flippedState, hax,
            pyGet_eq hk_arc ha, pyGet_eq hk_bias hb, pyGet_eq hk_bpix hbp,
            pyGet_eq hk_amp ham, pyGet_eq hk_dp hdp, swapNaxisKeys_of_length_eq hfd,
            flipSecs_of_le, hn1, hn2, hn3, hys, hk_ns, hk_np, pySet_eq,
            pyGet_set_self, hk_arc, okBind, errBind, pureEq, NPVal.shape0, NPVal.shape1,
            NPVal.T, NPVal.isArr, NPVal.copy, ScienceExposure.SetFrame,
            ScienceExposure.SetMasterFrame, hk_bias, hk_bpix, hk_amp, hk_dp]

/-! ## C1: jointness of the geometry flip -/

/-- C1: whenever the resolved dispersion axis is 1 (configured or
detected) and the dependent data is present, `GetDispersionDirection`
produces exactly one post-state, `flippedState`, in which ALL dependent
quantities are flipped together: arc transposed, bias transposed when it
is an array, bad-pixel mask transposed when present, amplifier frame
transposed, every amplifier's section descriptors order-reversed, gaps
swapped, pixel size reciprocated, the transpose flag true and the axis 0.
A failing run raises (process-fatal) and leaves no observable state, so
no reachable post-state is partially flipped. -/
theorem C1_geometry_joint_flip
    (ext : Extern) (st : SciExp) (fd : FitsDict) (det : ℤ) (k : ℕ)
    (a : List (List ℚ)) (b bp : Option NPVal) (am : NPVal) (dp : DetPar)
    (hk_arc : pyIdx st.msarc.length (det - 1) = some k)
    (ha : st.msarc[k]? = some (some (NPVal.mat a)))
    (hax : ScienceExposure.detect_axis ext.dispdir st.argflag.direction
      (some (NPVal.mat a)) = Except.ok 1)
    (hk_bias : pyIdx st.msbias.length (det - 1) = some k)
    (hb : st.msbias[k]? = some b)
    (hk_bpix : pyIdx st.bpix.length (det - 1) = some k)
    (hbp : st.bpix[k]? = some bp)
    (hbpArr : ∀ s, bp ≠ some (NPVal.str s))
    (hk_amp : pyIdx st.ampsec.length (det - 1) = some k)
    (ham : st.ampsec[k]? = some (some am))
    (hamArr : am.isArr = true)
    (hfd : fd.naxis0.length = fd.naxis1.length)
    (hk_dp : pyIdx st.spectDet.length (det - 1) = some k)
    (hdp : st.spectDet[k]? = some dp)
    (hys : dp.ysize ≠ 0)
    (hn1 : dp.numamplifiers ≤ dp.ampsec.length)
    (hn2 : dp.numamplifiers ≤ dp.datasec.length)
    (hn3 : dp.numamplifiers ≤ dp.oscansec.length)
    (hk_ns : pyIdx st.nspec.length (det - 1) = some k)
    (hk_np : pyIdx st.nspat.length (det - 1) = some k) :
    ScienceExposure.GetDispersionDirection ext st fd det =
      Except.ok (flippedState st k a b bp am dp, swapFd fd) ∧
    (flippedState st k a b bp am dp).transpose = true ∧
    (flippedState st k a b bp am dp).dispaxis = some 0 ∧
    (flippedState st k a b bp am dp).msarc =
      st.msarc.set k (some (NPVal.mat (matT a))) ∧
    (flippedState st k a b bp am dp).msbias[k]? = some (transposedIfArr b) ∧
    (flippedState st k a b bp am dp).bpix[k]? = some (transposedIfArr bp) ∧
    (flippedState st k a b bp am dp).ampsec = st.ampsec.set k (some am.T) ∧
    (flippedState st k a b bp am dp).spectDet[k]? = some (flipDetPar dp) := by
  have hkb_lt : k < st.msbias.length := pyIdx_lt hk_bias
  have hkp_lt : k < st.bpix.length := pyIdx_lt hk_bpix
  have hkd_lt : k < st.spectDet.length := pyIdx_lt hk_dp
  refine ⟨ScienceExposure.GDD_axis1_spec ext st fd det k a b bp am dp hk_arc ha hax
    hk_bias hb hk_bpix hbp hbpArr hk_amp ham hamArr hfd hk_dp hdp hys hn1 hn2 hn3
    hk_ns hk_np, rfl, rfl, rfl, ?_, ?_, rfl, ?_⟩
  · rcases b with _ | bv
    · simpa [flippedState, transposedIfArr] using hb
    · cases bv <;>
        simp_all [flippedState, transposedIfArr, NPVal.T,
          List.getElem?_set_eq_of_lt _ hkb_lt]
  · rcases bp with _ | bpv
    · simpa [flippedState, transposedIfArr] using hbp
    · cases bpv
      case str s => exact absurd rfl (hbpArr s)
      all_goals
        simp_all [flippedState, transposedIfArr, NPVal.T,
          List.getElem?_set_eq_of_lt _ hkp_lt]
  · simp only [flippedState]
    rw [List.getElem?_set_eq_of_lt _ hkd_lt]
    rfl

/-- Witness for C1 at the concrete one-detector exposure `st0`
(configured direction 1, arc 3×2). -/
theorem C1_geometry_joint_flip_witness :
    ScienceExposure.GetDispersionDirection ext0 st0 fd0 1 =
      Except.ok (flippedState st0 0 [[1, 2], [3, 4], [5, 6]] none none
        (NPVal.mat [[0]]) dp0, swapFd fd0) ∧
    (flippedState st0 0 [[1, 2], [3, 4], [5, 6]] none none
      (NPVal.mat [[0]]) dp0).transpose = true ∧
    (flippedState st0 0 [[1, 2], [3, 4], [5, 6]] none none
      (NPVal.mat [[0]]) dp0).dispaxis = some 0 ∧
    (flippedState st0 0 [[1, 2], [3, 4], [5, 6]] none none
      (NPVal.mat [[0]]) dp0).msarc =
      st0.msarc.set 0 (some (NPVal.mat (matT [[1, 2], [3, 4], [5, 6]]))) ∧
    (flippedState st0 0 [[1, 2], [3, 4], [5, 6]] none none
      (NPVal.mat [[0]]) dp0).msbias[0]? = some (transposedIfArr none) ∧
    (flippedState st0 0 [[1, 2], [3, 4], [5, 6]] none none
      (NPVal.mat [[0]]) dp0).bpix[0]? = some (transposedIfArr none) ∧
    (flippedState st0 0 [[1, 2], [3, 4], [5, 6]] none none
      (NPVal.mat [[0]]) dp0).ampsec =
      st0.ampsec.set 0 (some (NPVal.mat [[0]]).T) ∧
    (flippedState st0 0 [[1, 2], [3, 4], [5, 6]] none none
      (NPVal.mat [[0]]) dp0).spectDet[0]? = some (flipDetPar dp0) :=
  C1_geometry_joint_flip ext0 st0 fd0 1 0 [[1, 2], [3, 4], [5, 6]] none none
    (NPVal.mat [[0]]) dp0 rfl rfl rfl rfl rfl rfl rfl (fun s h => nomatch h)
    rfl rfl rfl rfl rfl rfl (by decide) (by decide) (by decide) (by decide)
    rfl rfl

/-! ## C2: no once-only guard on GetDispersionDirection -/

/-- C2 (counterexample): calling `GetDispersionDirection` twice with the
direction configured to 1 does NOT fail — no AlreadyNormalized (or any)
error exists — and the second call mutates the state again (a second,
full transposition): after two calls the arc is back to 3×2 and the pixel
counts are re-derived, so the post-second state differs from the
post-first state. -/
theorem okBindE {α β : Type} (a : α) (f : α → Except PyErr β) :
    Except.bind (Except.ok a) f = f a := rfl

theorem C2_counterexample :
    ScienceExposure.GetDispersionDirection ext0 st0 fd0 1 =
      Except.ok (flippedState st0 0 [[1, 2], [3, 4], [5, 6]] none none
        (NPVal.mat [[0]]) dp0, swapFd fd0) ∧
    ScienceExposure.GetDispersionDirection ext0
        (flippedState st0 0 [[1, 2], [3, 4], [5, 6]] none none
          (NPVal.mat [[0]]) dp0)
        (swapFd fd0) 1 =
      Except.ok (flippedState
        (flippedState st0 0 [[1, 2], [3, 4], [5, 6]] none none
          (NPVal.mat [[0]]) dp0)
        0 (matT [[1, 2], [3, 4], [5, 6]]) none none (NPVal.mat [[0]]).T
        (flipDetPar dp0), fd0) ∧
    (flippedState
      (flippedState st0 0 [[1, 2], [3, 4], [5, 6]] none none
        (NPVal.mat [[0]]) dp0)
      0 (matT [[1, 2], [3, 4], [5, 6]]) none none (NPVal.mat [[0]]).T
      (flipDetPar dp0)).nspec ≠
    (flippedState st0 0 [[1, 2], [3, 4], [5, 6]] none none
      (NPVal.mat [[0]]) dp0).nspec := by
  have h1 := ScienceExposure.GDD_axis1_spec ext0 st0 fd0 1 0
    [[1, 2], [3, 4], [5, 6]] none none (NPVal.mat [[0]]) dp0 rfl rfl rfl rfl rfl
    rfl rfl (fun s h => nomatch h) rfl rfl rfl rfl rfl rfl (by decide) (by decide)
    (by decide) (by decide) rfl rfl
  have hys2 : (flipDetPar dp0).ysize ≠ 0 := by
    simp [flipDetPar, dp0]
  have h2 := ScienceExposure.GDD_axis1_spec ext0
    (flippedState st0 0 [[1, 2], [3, 4], [5, 6]] none none (NPVal.mat [[0]]) dp0)
    (swapFd fd0) 1 0 (matT [[1, 2], [3, 4], [5, 6]]) none none
    (NPVal.mat [[0]]).T (flipDetPar dp0) rfl rfl rfl rfl rfl rfl rfl
    (fun s h => nomatch h) rfl rfl rfl rfl rfl rfl hys2 (by decide) (by decide)
    (by decide) rfl rfl
  exact ⟨h1, h2, by decide⟩

theorem take_append_of_length {α : Type} (A B : List α) (n : ℕ)
    (h : A.length = n) : (A ++ B).take n = A := by
  subst h
  exact List.take_left A B

theorem drop_append_of_length {α : Type} (A B : List α) (n : ℕ)
    (h : A.length = n) : (A ++ B).drop n = B := by
  subst h
  exact List.drop_left A B

theorem flipSecs_involutive {n : ℕ} {l : List (List (List ℤ))} (hn : n ≤ l.length) :
    (((l.take n).map List.reverse ++ l.drop n).take n).map List.reverse ++
      ((l.take n).map List.reverse ++ l.drop n).drop n = l := by
  have hlen : ((l.take n).map List.reverse).length = n := by
    simp [Nat.min_eq_left hn]
  rw [take_append_of_length _ _ _ hlen, drop_append_of_length _ _ _ hlen,
    List.map_map]
  simp [Function.comp, List.reverse_reverse, List.take_append_drop]

theorem DetPar.ext_fields (d1 d2 : DetPar)
    (h1 : d1.xgap = d2.xgap) (h2 : d1.ygap = d2.ygap) (h3 : d1.xsize = d2.xsize)
    (h4 : d1.ysize = d2.ysize) (h5 : d1.saturation = d2.saturation)
    (h6 : d1.nonlinear = d2.nonlinear)
    (h7 : d1.numamplifiers = d2.numamplifiers) (h8 : d1.ampsec = d2.ampsec)
    (h9 : d1.datasec = d2.datasec) (h10 : d1.oscansec = d2.oscansec) :
    d1 = d2 := by
  cases d1
  cases d2
  simp_all

theorem flipDetPar_involutive {dp : DetPar}
    (hn1 : dp.numamplifiers ≤ dp.ampsec.length)
    (hn2 : dp.numamplifiers ≤ dp.datasec.length)
    (hn3 : dp.numamplifiers ≤ dp.oscansec.length) :
    flipDetPar (flipDetPar dp) = dp := by
  refine DetPar.ext_fields _ _ rfl rfl rfl (one_div_one_div dp.ysize) rfl rfl rfl
    ?_ ?_ ?_
  · exact flipSecs_involutive hn1
  · exact flipSecs_involutive hn2
  · exact flipSecs_involutive hn3

/-- C2 (amended): `GetDispersionDirection` has no once-per-detector guard
and no AlreadyNormalized error: with the direction configured to 1, a
second call on the post-state of a successful first call succeeds again
and re-applies the ENTIRE flip — the arc slot holds the double-transposed
array, and the gap/size/section parameters are back to their original
values (double transposition), the transpose flag and normalized axis
remaining set. -/
theorem C2_no_once_only_guard
    (ext : Extern) (st : SciExp) (fd : FitsDict) (det : ℤ) (k : ℕ)
    (a : List (List ℚ)) (b bp : Option NPVal) (am : NPVal) (dp : DetPar)
    (hdir : st.argflag.direction = some 1)
    (hk_arc : pyIdx st.msarc.length (det - 1) = some k)
    (ha : st.msarc[k]? = some (some (NPVal.mat a)))
    (hk_bias : pyIdx st.msbias.length (det - 1) = some k)
    (hb : st.msbias[k]? = some b)
    (hk_bpix : pyIdx st.bpix.length (det - 1) = some k)
    (hbp : st.bpix[k]? = some bp)
    (hbpArr : ∀ s, bp ≠ some (NPVal.str s))
    (hk_amp : pyIdx st.ampsec.length (det - 1) = some k)
    (ham : st.ampsec[k]? = some (some am))
    (hamArr : am.isArr = true)
    (hfd : fd.naxis0.length = fd.naxis1.length)
    (hk_dp : pyIdx st.spectDet.length (det - 1) = some k)
    (hdp : st.spectDet[k]? = some dp)
    (hys : dp.ysize ≠ 0)
    (hn1 : dp.numamplifiers ≤ dp.ampsec.length)
    (hn2 : dp.numamplifiers ≤ dp.datasec.length)
    (hn3 : dp.numamplifiers ≤ dp.oscansec.length)
    (hk_ns : pyIdx st.nspec.length (det - 1) = some k)
    (hk_np : pyIdx st.nspat.length (det - 1) = some k) :
    Except.bind (ScienceExposure.GetDispersionDirection ext st fd det)
        (fun p => ScienceExposure.GetDispersionDirection ext p.1 p.2 det) =
      Except.ok (flippedState (flippedState st k a b bp am dp) k (matT a)
        (transposedIfArr b) (transposedIfArr bp) am.T (flipDetPar dp), fd) ∧
    (flippedState (flippedState st k a b bp am dp) k (matT a)
      (transposedIfArr b) (transposedIfArr bp) am.T (flipDetPar dp)).msarc =
      st.msarc.set k (some (NPVal.mat (matT (matT a)))) ∧
    (flippedState (flippedState st k a b bp am dp) k (matT a)
      (transposedIfArr b) (transposedIfArr bp) am.T (flipDetPar dp)).spectDet[k]? =
      some dp ∧
    (flippedState (flippedState st k a b bp am dp) k (matT a)
      (transposedIfArr b) (transposedIfArr bp) am.T (flipDetPar dp)).transpose =
      true ∧
    (flippedState (flippedState st k a b bp am dp) k (matT a)
      (transposedIfArr b) (transposedIfArr bp) am.T (flipDetPar dp)).dispaxis =
      some 0 := by
  have hlt_arc : k < st.msarc.length := pyIdx_lt hk_arc
  have hlt_bias : k < st.msbias.length := pyIdx_lt hk_bias
  have hlt_bpix : k < st.bpix.length := pyIdx_lt hk_bpix
  have hlt_amp : k < st.ampsec.length := pyIdx_lt hk_amp
  have hlt_dp : k < st.spectDet.length := pyIdx_lt hk_dp
  have hax : ScienceExposure.detect_axis ext.dispdir st.argflag.direction
      (some (NPVal.mat a)) = Except.ok 1 := by
    simp [ScienceExposure.detect_axis, hdir]
  have h1 := ScienceExposure.GDD_axis1_spec ext st fd det k a b bp am dp hk_arc ha
    hax hk_bias hb hk_bpix hbp hbpArr hk_amp ham hamArr hfd hk_dp hdp hys hn1 hn2
    hn3 hk_ns hk_np
  have hk_arc1 : pyIdx (flippedState st k a b bp am dp).msarc.length (det - 1) =
      some k := by
    simpa [flippedState, List.length_set] using hk_arc
  have ha1 : (flippedState st k a b bp am dp).msarc[k]? =
      some (some (NPVal.mat (matT a))) := by
    simp [flippedState, List.getElem?_set_eq_of_lt _ hlt_arc]
  have hax1 : ScienceExposure.detect_axis ext.dispdir
      (flippedState st k a b bp am dp).argflag.direction
      (some (NPVal.mat (matT a))) = Except.ok 1 := by
    simp [flippedState, ScienceExposure.detect_axis, hdir]
  have hk_bias1 : pyIdx (flippedState st k a b bp am dp).msbias.length (det - 1) =
      some k := by
    rcases b with _ | bv
    · simpa [flippedState] using hk_bias
    · cases bv <;> simp_all [flippedState, List.length_set]
  have hb1 : (flippedState st k a b bp am dp).msbias[k]? =
      some (transposedIfArr b) := by
    rcases b with _ | bv
    · simpa [flippedState, transposedIfArr] using hb
    · cases bv <;>
        simp_all [flippedState, transposedIfArr, NPVal.T,
          List.getElem?_set_eq_of_lt _ hlt_bias]
  have hk_bpix1 : pyIdx (flippedState st k a b bp am dp).bpix.length (det - 1) =
      some k := by
    rcases bp with _ | bpv
    · simpa [flippedState] using hk_bpix
    · simpa [flippedState, List.length_set] using hk_bpix
  have hbp1 : (flippedState st k a b bp am dp).bpix[k]? =
      some (transposedIfArr bp) := by
    rcases bp with _ | bpv
    · simpa [flippedState, transposedIfArr] using hbp
    · cases bpv
      case str s => exact absurd rfl (hbpArr s)
      all_goals
        simp_all [flippedState, transposedIfArr, NPVal.T,
          List.getElem?_set_eq_of_lt _ hlt_bpix]
  have hbpArr1 : ∀ s, transposedIfArr bp ≠ some (NPVal.str s) := by
    intro s
    rcases bp with _ | bpv
    · simp [transposedIfArr]
    · cases bpv
      case str t => exact absurd rfl (hbpArr t)
      all_goals simp [transposedIfArr, NPVal.T]
  have hk_amp1 : pyIdx (flippedState st k a b bp am dp).ampsec.length (det - 1) =
      some k := by
    simpa [flippedState, List.length_set] using hk_amp
  have ham1 : (flippedState st k a b bp am dp).ampsec[k]? = some (some am.T) := by
    simp [flippedState, List.getElem?_set_eq_of_lt _ hlt_amp]
  have hfd1 : (swapFd fd).naxis0.length = (swapFd fd).naxis1.length := by
    simpa [swapFd] using hfd.symm
  have hk_dp1 : pyIdx (flippedState st k a b bp am dp).spectDet.length (det - 1) =
      some k := by
    simpa [flippedState, List.length_set] using hk_dp
  have hdp1 : (flippedState st k a b bp am dp).spectDet[k]? =
      some (flipDetPar dp) := by
    simp only [flippedState]
    rw [List.getElem?_set_eq_of_lt _ hlt_dp]
    rfl
  have hys1 : (flipDetPar dp).ysize ≠ 0 := by
    simpa [flipDetPar] using one_div_ne_zero hys
  have hn11 : (flipDetPar dp).numamplifiers ≤ (flipDetPar dp).ampsec.length := by
    simp only [flipDetPar]
    simp [Nat.min_eq_left hn1]
  have hn21 : (flipDetPar dp).numamplifiers ≤ (flipDetPar dp).datasec.length := by
    simp only [flipDetPar]
    simp [Nat.min_eq_left hn2]
  have hn31 : (flipDetPar dp).numamplifiers ≤ (flipDetPar dp).oscansec.length := by
    simp only [flipDetPar]
    simp [Nat.min_eq_left hn3]
  have hk_ns1 : pyIdx (flippedState st k a b bp am dp).nspec.length (det - 1) =
      some k := by
    simpa [flippedState, List.length_set] using hk_ns
  have hk_np1 : pyIdx (flippedState st k a b bp am dp).nspat.length (det - 1) =
      some k := by
    simpa [flippedState, List.length_set] using hk_np
  have h2 := ScienceExposure.GDD_axis1_spec ext (flippedState st k a b bp am dp)
    (swapFd fd) det k (matT a) (transposedIfArr b) (transposedIfArr bp) am.T
    (flipDetPar dp) hk_arc1 ha1 hax1 hk_bias1 hb1 hk_bpix1 hbp1 hbpArr1 hk_amp1
    ham1 (NPVal.isArr_T hamArr) hfd1 hk_dp1 hdp1 hys1 hn11 hn21 hn31 hk_ns1 hk_np1
  refine ⟨?_, ?_, ?_, rfl, rfl⟩
  · rw [h1, okBindE]
    exact h2
  · simp [flippedState, List.set_set]
  · simp only [flippedState]
    rw [List.set_set, List.getElem?_set_eq_of_lt _ hlt_dp]
    exact congrArg some (flipDetPar_involutive hn1 hn2 hn3)

/-- Witness for C2 at the concrete one-detector exposure `st0`. -/
theorem C2_no_once_only_guard_witness :
    Except.bind (ScienceExposure.GetDispersionDirection ext0 st0 fd0 1)
        (fun p => ScienceExposure.GetDispersionDirection ext0 p.1 p.2 1) =
      Except.ok (flippedState
        (flippedState st0 0 [[1, 2], [3, 4], [5, 6]] none none
          (NPVal.mat [[0]]) dp0)
        0 (matT [[1, 2], [3, 4], [5, 6]]) (transposedIfArr none)
        (transposedIfArr none) (NPVal.mat [[0]]).T (flipDetPar dp0), fd0) ∧
    (flippedState
      (flippedState st0 0 [[1, 2], [3, 4], [5, 6]] none none
        (NPVal.mat [[0]]) dp0)
      0 (matT [[1, 2], [3, 4], [5, 6]]) (transposedIfArr none)
      (transposedIfArr none) (NPVal.mat [[0]]).T (flipDetPar dp0)).msarc =
      st0.msarc.set 0 (some (NPVal.mat (matT (matT [[1, 2], [3, 4], [5, 6]])))) ∧
    (flippedState
      (flippedState st0 0 [[1, 2], [3, 4], [5, 6]] none none
        (NPVal.mat [[0]]) dp0)
      0 (matT [[1, 2], [3, 4], [5, 6]]) (transposedIfArr none)
      (transposedIfArr none) (NPVal.mat [[0]]).T (flipDetPar dp0)).spectDet[0]? =
      some dp0 ∧
    (flippedState
      (flippedState st0 0 [[1, 2], [3, 4], [5, 6]] none none
        (NPVal.mat [[0]]) dp0)
      0 (matT [[1, 2], [3, 4], [5, 6]]) (transposedIfArr none)
      (transposedIfArr none) (NPVal.mat [[0]]).T (flipDetPar dp0)).transpose =
      true ∧
    (flippedState
      (flippedState st0 0 [[1, 2], [3, 4], [5, 6]] none none
        (NPVal.mat [[0]]) dp0)
      0 (matT [[1, 2], [3, 4], [5, 6]]) (transposedIfArr none)
      (transposedIfArr none) (NPVal.mat [[0]]).T (flipDetPar dp0)).dispaxis =
      some 0 :=
  C2_no_once_only_guard ext0 st0 fd0 1 0 [[1, 2], [3, 4], [5, 6]] none none
    (NPVal.mat [[0]]) dp0 rfl rfl rfl rfl rfl rfl rfl (fun s h => nomatch h)
    rfl rfl rfl rfl rfl rfl (by decide) (by decide) (by decide) (by decide)
    rfl rfl

/-! ## C10: the naxis keyword swap is global across frames -/

/-- C10: when the transpose branch runs for ONE detector, the returned
fitsdict has the `naxis0`/`naxis1` entries of EVERY frame of the exposure
exchanged (`swapFd` swaps the whole keyword lists, with no dependence on
the detector index); an odd number of branch-taking detectors therefore
leaves every frame's recorded axis sizes swapped, and running the branch
for a second (different) detector swaps every frame's sizes a second
time, restoring the original fitsdict — the detectors' geometry
normalizations are coupled through the shared fitsdict. -/
theorem C10_fitsdict_swap_global
    (ext : Extern) (st : SciExp) (fd : FitsDict) (det det2 : ℤ) (k k2 : ℕ)
    (n : ℕ)
    (a a2 : List (List ℚ)) (b b2 bp bp2 : Option NPVal) (am am2 : NPVal)
    (dp dp2 : DetPar)
    (hkk : k ≠ k2)
    (hdir : st.argflag.direction = some 1)
    (hk_arc : pyIdx st.msarc.length (det - 1) = some k)
    (ha : st.msarc[k]? = some (some (NPVal.mat a)))
    (hk_bias : pyIdx st.msbias.length (det - 1) = some k)
    (hb : st.msbias[k]? = some b)
    (hk_bpix : pyIdx st.bpix.length (det - 1) = some k)
    (hbp : st.bpix[k]? = some bp)
    (hbpArr : ∀ s, bp ≠ some (NPVal.str s))
    (hk_amp : pyIdx st.ampsec.length (det - 1) = some k)
    (ham : st.ampsec[k]? = some (some am))
    (hamArr : am.isArr = true)
    (hfd : fd.naxis0.length = fd.naxis1.length)
    (hk_dp : pyIdx st.spectDet.length (det - 1) = some k)
    (hdp : st.spectDet[k]? = some dp)
    (hys : dp.ysize ≠ 0)
    (hn1 : dp.numamplifiers ≤ dp.ampsec.length)
    (hn2 : dp.numamplifiers ≤ dp.datasec.length)
    (hn3 : dp.numamplifiers ≤ dp.oscansec.length)
    (hk_ns : pyIdx st.nspec.length (det - 1) = some k)
    (hk_np : pyIdx st.nspat.length (det - 1) = some k)
    (hk2_arc : pyIdx st.msarc.length (det2 - 1) = some k2)
    (ha2 : st.msarc[k2]? = some (some (NPVal.mat a2)))
    (hk2_bias : pyIdx st.msbias.length (det2 - 1) = some k2)
    (hb2 : st.msbias[k2]? = some b2)
    (hk2_bpix : pyIdx st.bpix.length (det2 - 1) = some k2)
    (hbp2 : st.bpix[k2]? = some bp2)
    (hbp2Arr : ∀ s, bp2 ≠ some (NPVal.str s))
    (hk2_amp : pyIdx st.ampsec.length (det2 - 1) = some k2)
    (ham2 : st.ampsec[k2]? = some (some am2))
    (ham2Arr : am2.isArr = true)
    (hk2_dp : pyIdx st.spectDet.length (det2 - 1) = some k2)
    (hdp2 : st.spectDet[k2]? = some dp2)
    (hys2 : dp2.ysize ≠ 0)
    (hn12 : dp2.numamplifiers ≤ dp2.ampsec.length)
    (hn22 : dp2.numamplifiers ≤ dp2.datasec.length)
    (hn32 : dp2.numamplifiers ≤ dp2.oscansec.length)
    (hk2_ns : pyIdx st.nspec.length (det2 - 1) = some k2)
    (hk2_np : pyIdx st.nspat.length (det2 - 1) = some k2) :
    ScienceExposure.GetDispersionDirection ext st fd det =
      Except.ok (flippedState st k a b bp am dp, swapFd fd) ∧
    (swapFd fd).naxis0 = fd.naxis1 ∧
    (swapFd fd).naxis1 = fd.naxis0 ∧
    swapFd (swapFd fd) = fd ∧
    swapFd^[n] fd = (if n % 2 = 0 then fd else swapFd fd) ∧
    Except.bind (ScienceExposure.GetDispersionDirection ext st fd det)
        (fun p => ScienceExposure.GetDispersionDirection ext p.1 p.2 det2) =
      Except.ok (flippedState (flippedState st k a b bp am dp) k2 a2 b2 bp2 am2
        dp2, fd) := by
  have hax : ScienceExposure.detect_axis ext.dispdir st.argflag.direction
      (some (NPVal.mat a)) = Except.ok 1 := by
    simp [ScienceExposure.detect_axis, hdir]
  have h1 := ScienceExposure.GDD_axis1_spec ext st fd det k a b bp am dp hk_arc ha
    hax hk_bias hb hk_bpix hbp hbpArr hk_amp ham hamArr hfd hk_dp hdp hys hn1 hn2
    hn3 hk_ns hk_np
  have hk2_arc1 : pyIdx (flippedState st k a b bp am dp).msarc.length (det2 - 1) =
      some k2 := by
    simpa [flippedState, List.length_set] using hk2_arc
  have ha21 : (flippedState st k a b bp am dp).msarc[k2]? =
      some (some (NPVal.mat a2)) := by
    simp only [flippedState]
    rw [List.getElem?_set_ne hkk]
    exact ha2
  have hax2 : ScienceExposure.detect_axis ext.dispdir
      (flippedState st k a b bp am dp).argflag.direction
      (some (NPVal.mat a2)) = Except.ok 1 := by
    simp [flippedState, ScienceExposure.detect_axis, hdir]
  have hk2_bias1 : pyIdx (flippedState st k a b bp am dp).msbias.length
      (det2 - 1) = some k2 := by
    rcases b with _ | bv
    · simpa [flippedState] using hk2_bias
    · cases bv <;> simp_all [flippedState, List.length_set]
  have hb21 : (flippedState st k a b bp am dp).msbias[k2]? = some b2 := by
    rcases b with _ | bv
    · simpa [flippedState] using hb2
    · cases bv
      case str s => simpa [flippedState] using hb2
      all_goals
        simp only [flippedState]
        rw [List.getElem?_set_ne hkk]
        exact hb2
  have hk2_bpix1 : pyIdx (flippedState st k a b bp am dp).bpix.length (det2 - 1) =
      some k2 := by
    rcases bp with _ | bpv
    · simpa [flippedState] using hk2_bpix
    · simpa [flippedState, List.length_set] using hk2_bpix
  have hbp21 : (flippedState st k a b bp am dp).bpix[k2]? = some bp2 := by
    rcases bp with _ | bpv
    · simpa [flippedState] using hbp2
    · simp only [flippedState]
      rw [List.getElem?_set_ne hkk]
      exact hbp2
  have hk2_amp1 : pyIdx (flippedState st k a b bp am dp).ampsec.length
      (det2 - 1) = some k2 := by
    simpa [flippedState, List.length_set] using hk2_amp
  have ham21 : (flippedState st k a b bp am dp).ampsec[k2]? = some (some am2) := by
    simp only [flippedState]
    rw [List.getElem?_set_ne hkk]
    exact ham2
  have hfd1 : (swapFd fd).naxis0.length = (swapFd fd).naxis1.length := by
    simpa [swapFd] using hfd.symm
  have hk2_dp1 : pyIdx (flippedState st k a b bp am dp).spectDet.length
      (det2 - 1) = some k2 := by
    simpa [flippedState, List.length_set] using hk2_dp
  have hdp21 : (flippedState st k a b bp am dp).spectDet[k2]? = some dp2 := by
    simp only [flippedState]
    rw [List.getElem?_set_ne hkk]
    exact hdp2
  have hk2_ns1 : pyIdx (flippedState st k a b bp am dp).nspec.length (det2 - 1) =
      some k2 := by
    simpa [flippedState, List.length_set] using hk2_ns
  have hk2_np1 : pyIdx (flippedState st k a b bp am dp).nspat.length (det2 - 1) =
      some k2 := by
    simpa [flippedState, List.length_set] using hk2_np
  have h2 := ScienceExposure.GDD_axis1_spec ext (flippedState st k a b bp am dp)
    (swapFd fd) det2 k2 a2 b2 bp2 am2 dp2 hk2_arc1 ha21 hax2 hk2_bias1 hb21
    hk2_bpix1 hbp21 hbp2Arr hk2_amp1 ham21 ham2Arr hfd1 hk2_dp1 hdp21 hys2 hn12
    hn22 hn32 hk2_ns1 hk2_np1
  have hswap : ∀ m : ℕ, swapFd^[m] fd = (if m % 2 = 0 then fd else swapFd fd) := by
    intro m
    induction m with
    | zero => simp
    | succ j ih =>
      rw [Function.iterate_succ_apply', ih]
      rcases Nat.even_or_odd j with hj | hj
      · have h0 : j % 2 = 0 := Nat.even_iff.mp hj
        have h1' : (j + 1) % 2 = 1 := by omega
        simp [h0, h1']
      · have h0 : j % 2 = 1 := Nat.odd_iff.mp hj
        have h1' : (j + 1) % 2 = 0 := by omega
        simp [h0, h1', swapFd]
  refine ⟨h1, rfl, rfl, rfl, hswap n, ?_⟩
  rw [h1, okBindE]
  exact h2

/-- Witness for C10 on a concrete two-detector exposure. -/
theorem C10_fitsdict_swap_global_witness :
    ScienceExposure.GetDispersionDirection ext0 st2d fd0 1 =
      Except.ok (flippedState st2d 0 [[1, 2], [3, 4], [5, 6]] none none
        (NPVal.mat [[0]]) dp0, swapFd fd0) ∧
    (swapFd fd0).naxis0 = fd0.naxis1 ∧
    (swapFd fd0).naxis1 = fd0.naxis0 ∧
    swapFd (swapFd fd0) = fd0 ∧
    swapFd^[3] fd0 = (if 3 % 2 = 0 then fd0 else swapFd fd0) ∧
    Except.bind (ScienceExposure.GetDispersionDirection ext0 st2d fd0 1)
        (fun p => ScienceExposure.GetDispersionDirection ext0 p.1 p.2 2) =
      Except.ok (flippedState
        (flippedState st2d 0 [[1, 2], [3, 4], [5, 6]] none none
          (NPVal.mat [[0]]) dp0)
        1 [[7, 8]] none none (NPVal.mat [[9]]) dp0, fd0) :=
  C10_fitsdict_swap_global ext0 st2d fd0 1 2 0 1 3 [[1, 2], [3, 4], [5, 6]]
    [[7, 8]] none none none none (NPVal.mat [[0]]) (NPVal.mat [[9]]) dp0 dp0
    (by decide) rfl rfl rfl rfl rfl rfl rfl (fun s h => nomatch h) rfl rfl rfl
    rfl rfl rfl (by decide) (by decide) (by decide) (by decide) rfl rfl rfl rfl
    rfl rfl rfl rfl (fun s h => nomatch h) rfl rfl rfl rfl rfl (by decide)
    (by decide) (by decide) (by decide) rfl rfl
